import Mathlib

/-!
Verification of the hasvk video-decode bridge (VDPAU and VA-API backends).

This file contains a shallow embedding of the decode-session, surface-cache,
parameter-translation, deferred-decode-queue and DMA-buf copy logic of
`src/intel/vulkan_hasvk/anv_video_vdpau_bridge.c`,
`src/intel/vulkan_hasvk/anv_video_vaapi_bridge.c`,
`src/intel/vulkan_hasvk/anv_video_vdpau_h264.c` and
`src/intel/vulkan_hasvk/anv_video_vaapi_h264.c`,
together with theorems settling the specification claims about that code.

Modelling conventions:
 * machine integers (`uint32_t`, `uint64_t`) become `Nat`, with explicit
   `% 2^32` wrap where the C arithmetic can wrap;
 * pointers to Vulkan images become `Nat` identities; a null pointer or an
   absent `pNext` extension becomes `Option`/`Bool` fields of the inputs;
 * backend handles (`VdpVideoSurface`, `VASurfaceID`, buffer ids) become
   `Nat`, with the C sentinel `(uint32_t)-1` kept as an explicit constant;
 * external backend calls (surface/decoder/buffer creation and destruction)
   are recorded as events so theorems can speak about which backend calls a
   code path performs.
-/

namespace HasvkVideo

/-- `(VdpVideoSurface)-1` / `VA_INVALID_SURFACE`: the invalid-handle sentinel. -/
def INVALID_HANDLE : Nat := 4294967295

/-- `HASVK_MAX_SURFACE_CACHE_SIZE` from anv_video_vdpau_bridge.c. -/
def HASVK_MAX_SURFACE_CACHE_SIZE : Nat := 32

/-! ## VDPAU surface cache (anv_video_vdpau_bridge.c lines 540-743)

`struct anv_vdpau_surface_map` entries as used by the bridge: the Vulkan
image identity, the VDPAU surface handle, and the LRU logical timestamp
`last_used_frame`. -/

structure SurfaceMapEntry where
  image : Nat
  vdp_surface : Nat
  last_used_frame : Nat
deriving DecidableEq, Repr

/-- The session state relevant to the surface cache: the `surface_map`
array (modelled as a list, front = index 0), its capacity, and the
monotonically increasing `frame_counter` logical clock. -/
structure VdpauCache where
  surface_map : List SurfaceMapEntry
  surface_map_capacity : Nat
  frame_counter : Nat
deriving DecidableEq, Repr

/-- The first loop of `anv_vdpau_add_surface_mapping`: scan for an entry
whose `image` matches; on a hit replace its handle and refresh its
timestamp, leaving everything else unchanged. `none` when no entry
matches. -/
def vdpauUpdateExisting (m : List SurfaceMapEntry) (img surf ctr : Nat) :
    Option (List SurfaceMapEntry) :=
  match m with
  | [] => none
  | e :: rest =>
    if e.image = img then
      some ({ image := e.image, vdp_surface := surf, last_used_frame := ctr } :: rest)
    else
      (vdpauUpdateExisting rest img surf ctr).map (e :: ·)

/-- The LRU scan loop of `anv_vdpau_add_surface_mapping`: starting from
candidate index `best` with timestamp `bestTs`, walk the remaining entries
(`m`, whose first element has index `i` in the full array) and keep the
candidate with the strictly smaller `last_used_frame`.  Ties keep the
earlier index because the comparison is strict. -/
def lruScan (m : List SurfaceMapEntry) (i best bestTs : Nat) : Nat × Nat :=
  match m with
  | [] => (best, bestTs)
  | e :: rest =>
    if e.last_used_frame < bestTs then
      lruScan rest (i + 1) i e.last_used_frame
    else
      lruScan rest (i + 1) best bestTs

/-- Index of the LRU victim in a non-empty surface map `e :: rest`:
the C loop starts with `lru_index = 0`, `oldest_frame = map[0].last_used_frame`
and scans indices `1..`. -/
def lruIndex (e : SurfaceMapEntry) (rest : List SurfaceMapEntry) : Nat :=
  (lruScan rest 1 0 e.last_used_frame).1

/-- `anv_vdpau_add_surface_mapping` (anv_video_vdpau_bridge.c:540-594).
Returns the updated cache together with the surface handle destroyed by
LRU eviction, if any.  The `frame_counter` is incremented first on every
path.  The empty-map-at-capacity case mirrors the defensive early return
(unreachable when the capacity is positive). -/
def anv_vdpau_add_surface_mapping (c : VdpauCache) (img surf : Nat) :
    VdpauCache × Option Nat :=
  let ctr := c.frame_counter + 1
  match vdpauUpdateExisting c.surface_map img surf ctr with
  | some m => ({ c with surface_map := m, frame_counter := ctr }, none)
  | none =>
    if c.surface_map.length < c.surface_map_capacity then
      ({ c with
          surface_map := c.surface_map ++
            [{ image := img, vdp_surface := surf, last_used_frame := ctr }],
          frame_counter := ctr }, none)
    else
      match c.surface_map with
      | [] => ({ c with frame_counter := ctr }, none)
      | e :: rest =>
        let lru := lruIndex e rest
        let victim := (e :: rest).getD lru e
        let destroyed :=
          if victim.vdp_surface ≠ INVALID_HANDLE then some victim.vdp_surface else none
        ({ c with
            surface_map := (e :: rest).set lru
              { image := img, vdp_surface := surf, last_used_frame := ctr },
            frame_counter := ctr }, destroyed)

/-- The scan loop of `anv_vdpau_lookup_surface`: find the first entry for
`img`, refresh its `last_used_frame` to the current `frame_counter`
(without incrementing the counter), and return its handle;
`INVALID_HANDLE` when absent. -/
def vdpauLookupGo (m : List SurfaceMapEntry) (img ctr : Nat) :
    List SurfaceMapEntry × Nat :=
  match m with
  | [] => ([], INVALID_HANDLE)
  | e :: rest =>
    if e.image = img then
      ({ image := e.image, vdp_surface := e.vdp_surface, last_used_frame := ctr } :: rest,
       e.vdp_surface)
    else
      let r := vdpauLookupGo rest img ctr
      (e :: r.1, r.2)

/-- `anv_vdpau_lookup_surface` (anv_video_vdpau_bridge.c:731-743). -/
def anv_vdpau_lookup_surface (c : VdpauCache) (img : Nat) : VdpauCache × Nat :=
  let r := vdpauLookupGo c.surface_map img c.frame_counter
  ({ c with surface_map := r.1 }, r.2)

/-- The value `anv_vdpau_lookup_surface` returns, as a pure read (no
timestamp refresh); used to state theorems about which references resolve. -/
def vdpauLookupValue (m : List SurfaceMapEntry) (img : Nat) : Nat :=
  match m with
  | [] => INVALID_HANDLE
  | e :: rest => if e.image = img then e.vdp_surface else vdpauLookupValue rest img

/-! ## VA-API surface cache (anv_video_vaapi_bridge.c lines 450-498)

The VA-API cache entry has no timestamp field, and its insert has no
eviction: at capacity the new mapping is silently dropped. -/

structure VaapiSurfaceMapEntry where
  image : Nat
  va_surface : Nat
deriving DecidableEq, Repr

structure VaapiCache where
  surface_map : List VaapiSurfaceMapEntry
  surface_map_capacity : Nat
deriving DecidableEq, Repr

/-- First loop of `anv_vaapi_add_surface_mapping`: replace the handle of an
existing entry for `img`. -/
def vaapiUpdateExisting (m : List VaapiSurfaceMapEntry) (img surf : Nat) :
    Option (List VaapiSurfaceMapEntry) :=
  match m with
  | [] => none
  | e :: rest =>
    if e.image = img then
      some ({ image := e.image, va_surface := surf } :: rest)
    else
      (vaapiUpdateExisting rest img surf).map (e :: ·)

/-- `anv_vaapi_add_surface_mapping` (anv_video_vaapi_bridge.c:450-469). -/
def anv_vaapi_add_surface_mapping (c : VaapiCache) (img surf : Nat) : VaapiCache :=
  match vaapiUpdateExisting c.surface_map img surf with
  | some m => { c with surface_map := m }
  | none =>
    if c.surface_map.length < c.surface_map_capacity then
      { c with surface_map := c.surface_map ++ [{ image := img, va_surface := surf }] }
    else
      c

/-- The scan loop of `anv_vaapi_lookup_surface`. -/
def vaapiLookupGo (m : List VaapiSurfaceMapEntry) (img : Nat) : Nat :=
  match m with
  | [] => INVALID_HANDLE
  | e :: rest => if e.image = img then e.va_surface else vaapiLookupGo rest img

/-- `anv_vaapi_lookup_surface` (anv_video_vaapi_bridge.c:474-484). -/
def anv_vaapi_lookup_surface (c : VaapiCache) (img : Nat) : Nat :=
  vaapiLookupGo c.surface_map img

/-! ## Properties of the LRU scan -/

/-- Default entry used for out-of-range `getD` reads in statements. -/
def defaultEntry : SurfaceMapEntry :=
  { image := 0, vdp_surface := 0, last_used_frame := 0 }

lemma lruScan_spec (m : List SurfaceMapEntry) :
    ∀ (L : List SurfaceMapEntry) (i best bestTs : Nat),
      L.drop i = m → best < i → best < L.length →
      (L.getD best defaultEntry).last_used_frame = bestTs →
      (∀ j < i, bestTs ≤ (L.getD j defaultEntry).last_used_frame) →
      (∀ j < best, bestTs < (L.getD j defaultEntry).last_used_frame) →
      (lruScan m i best bestTs).1 < L.length ∧
      (L.getD (lruScan m i best bestTs).1 defaultEntry).last_used_frame =
        (lruScan m i best bestTs).2 ∧
      (∀ j < L.length,
        (lruScan m i best bestTs).2 ≤ (L.getD j defaultEntry).last_used_frame) ∧
      (∀ j < (lruScan m i best bestTs).1,
        (lruScan m i best bestTs).2 < (L.getD j defaultEntry).last_used_frame) := by
  induction m with
  | nil =>
    intro L i best bestTs hdrop hbi hbl hts hmin hstrict
    have hLi : L.length ≤ i := by
      by_contra h
      push_neg at h
      have := List.drop_eq_nil_iff.mp hdrop
      omega
    refine ⟨hbl, hts, ?_, ?_⟩
    · intro j hj
      exact hmin j (lt_of_lt_of_le hj hLi)
    · intro j hj
      exact hstrict j hj
  | cons e rest ih =>
    intro L i best bestTs hdrop hbi hbl hts hmin hstrict
    have hiL : i < L.length := by
      by_contra h
      push_neg at h
      have : L.drop i = [] := List.drop_eq_nil_iff.mpr h
      rw [this] at hdrop
      exact List.noConfusion hdrop
    have hgetI : L.getD i defaultEntry = e := by
      have h0 : (L.drop i).getD 0 defaultEntry = e := by rw [hdrop]; rfl
      rwa [List.getD_eq_getElem?_getD, List.getElem?_drop, Nat.add_zero,
        ← List.getD_eq_getElem?_getD] at h0
    have hdrop' : L.drop (i + 1) = rest := by
      have : L.drop (i + 1) = (L.drop i).drop 1 := by
        rw [List.drop_drop]
      rw [this, hdrop]
      rfl
    simp only [lruScan]
    by_cases hcmp : e.last_used_frame < bestTs
    · rw [if_pos hcmp]
      refine ih L (i + 1) i e.last_used_frame hdrop' (Nat.lt_succ_self i) hiL
        (by rw [hgetI]) ?_ ?_
      · intro j hj
        rcases Nat.lt_succ_iff_lt_or_eq.mp hj with hji | hji
        · exact le_trans (le_of_lt hcmp) (hmin j hji)
        · subst hji; rw [hgetI]
      · intro j hj
        exact lt_of_lt_of_le hcmp (hmin j hj)
    · rw [if_neg hcmp]
      push_neg at hcmp
      refine ih L (i + 1) best bestTs hdrop' (Nat.lt_succ_of_lt hbi) hbl hts ?_ hstrict
      intro j hj
      rcases Nat.lt_succ_iff_lt_or_eq.mp hj with hji | hji
      · exact hmin j hji
      · subst hji; rw [hgetI]; exact hcmp

/-- `lruIndex` picks a valid index whose timestamp is minimal, and every
strictly earlier entry has a strictly larger timestamp (ties are broken by
the earliest array position). -/
lemma lruIndex_spec (e : SurfaceMapEntry) (rest : List SurfaceMapEntry) :
    lruIndex e rest < (e :: rest).length ∧
    ((e :: rest).getD (lruIndex e rest) defaultEntry).last_used_frame =
      (lruScan rest 1 0 e.last_used_frame).2 ∧
    (∀ j < (e :: rest).length,
      (lruScan rest 1 0 e.last_used_frame).2 ≤
        ((e :: rest).getD j defaultEntry).last_used_frame) ∧
    (∀ j < lruIndex e rest,
      (lruScan rest 1 0 e.last_used_frame).2 <
        ((e :: rest).getD j defaultEntry).last_used_frame) := by
  have h := lruScan_spec rest (e :: rest) 1 0 e.last_used_frame rfl Nat.one_pos
    (by simp) rfl ?_ ?_
  · exact h
  · intro j hj
    interval_cases j
    simp
  · intro j hj
    omega

/-! ## Properties of update and lookup -/

lemma vdpauUpdateExisting_eq_none (m : List SurfaceMapEntry) (img surf ctr : Nat)
    (h : ∀ e ∈ m, e.image ≠ img) :
    vdpauUpdateExisting m img surf ctr = none := by
  induction m with
  | nil => rfl
  | cons e rest ih =>
    simp only [vdpauUpdateExisting]
    rw [if_neg (h e (List.mem_cons_self e rest))]
    rw [ih (fun x hx => h x (List.mem_cons_of_mem e hx))]
    rfl

lemma vdpauUpdateExisting_eq_some (m : List SurfaceMapEntry) (img surf ctr : Nat)
    (k : Nat) (hk : k < m.length)
    (him : (m.getD k defaultEntry).image = img)
    (hfirst : ∀ j < k, (m.getD j defaultEntry).image ≠ img) :
    vdpauUpdateExisting m img surf ctr =
      some (m.set k { image := img, vdp_surface := surf, last_used_frame := ctr }) := by
  induction m generalizing k with
  | nil => simp at hk
  | cons e rest ih =>
    cases k with
    | zero =>
      simp only [List.getD_cons_zero] at him
      simp only [vdpauUpdateExisting, if_pos him, him, List.set]
      simp
    | succ k' =>
      have hne : e.image ≠ img := by
        have := hfirst 0 (Nat.succ_pos k')
        simpa using this
      simp only [vdpauUpdateExisting, if_neg hne]
      rw [ih k' (by simpa using hk) (by simpa using him)
        (fun j hj => by
          have := hfirst (j + 1) (Nat.succ_lt_succ hj)
          simpa using this)]
      rfl

lemma vaapiUpdateExisting_eq_none (m : List VaapiSurfaceMapEntry) (img surf : Nat)
    (h : ∀ e ∈ m, e.image ≠ img) :
    vaapiUpdateExisting m img surf = none := by
  induction m with
  | nil => rfl
  | cons e rest ih =>
    simp only [vaapiUpdateExisting]
    rw [if_neg (h e (List.mem_cons_self e rest))]
    rw [ih (fun x hx => h x (List.mem_cons_of_mem e hx))]
    rfl

lemma vdpauLookupGo_miss (m : List SurfaceMapEntry) (img ctr : Nat)
    (h : ∀ e ∈ m, e.image ≠ img) :
    vdpauLookupGo m img ctr = (m, INVALID_HANDLE) := by
  induction m with
  | nil => rfl
  | cons e rest ih =>
    simp only [vdpauLookupGo]
    rw [if_neg (h e (List.mem_cons_self e rest)),
      ih (fun x hx => h x (List.mem_cons_of_mem e hx))]

lemma vdpauLookupGo_hit (m : List SurfaceMapEntry) (img ctr : Nat)
    (k : Nat) (hk : k < m.length)
    (him : (m.getD k defaultEntry).image = img)
    (hfirst : ∀ j < k, (m.getD j defaultEntry).image ≠ img) :
    vdpauLookupGo m img ctr =
      (m.set k { m.getD k defaultEntry with last_used_frame := ctr },
       (m.getD k defaultEntry).vdp_surface) := by
  induction m generalizing k with
  | nil => simp at hk
  | cons e rest ih =>
    cases k with
    | zero =>
      simp only [List.getD_cons_zero] at him ⊢
      simp only [vdpauLookupGo, if_pos him, List.set]
    | succ k' =>
      have hne : e.image ≠ img := by
        have := hfirst 0 (Nat.succ_pos k')
        simpa using this
      simp only [List.getD_cons_succ] at him ⊢
      simp only [vdpauLookupGo, if_neg hne]
      rw [ih k' (by simpa using hk) him
        (fun j hj => by
          have := hfirst (j + 1) (Nat.succ_lt_succ hj)
          simpa using this)]
      simp [List.set]

/-- The image/surface projection of the cache (everything except the LRU
timestamps). -/
def stripTs (m : List SurfaceMapEntry) : List (Nat × Nat) :=
  m.map (fun e => (e.image, e.vdp_surface))

lemma vdpauLookupGo_stripTs (m : List SurfaceMapEntry) (img ctr : Nat) :
    stripTs (vdpauLookupGo m img ctr).1 = stripTs m := by
  induction m with
  | nil => rfl
  | cons e rest ih =>
    simp only [vdpauLookupGo]
    by_cases h : e.image = img
    · simp [stripTs, h]
    · simp only [if_neg h]
      simp [stripTs] at ih ⊢
      exact ih

lemma vdpauLookupGo_snd (m : List SurfaceMapEntry) (img ctr : Nat) :
    (vdpauLookupGo m img ctr).2 = vdpauLookupValue m img := by
  induction m with
  | nil => rfl
  | cons e rest ih =>
    simp only [vdpauLookupGo, vdpauLookupValue]
    by_cases h : e.image = img
    · simp [h]
    · simp only [if_neg h]
      exact ih

lemma vdpauLookupValue_congr (m m' : List SurfaceMapEntry) (img : Nat)
    (h : stripTs m = stripTs m') :
    vdpauLookupValue m img = vdpauLookupValue m' img := by
  induction m generalizing m' with
  | nil =>
    cases m' with
    | nil => rfl
    | cons e rest => simp [stripTs] at h
  | cons e rest ih =>
    cases m' with
    | nil => simp [stripTs] at h
    | cons e' rest' =>
      simp only [stripTs, List.map_cons, List.cons.injEq, Prod.mk.injEq] at h
      obtain ⟨⟨h1, h2⟩, h3⟩ := h
      simp only [vdpauLookupValue, h1, h2]
      by_cases hi : e'.image = img
      · simp [hi]
      · simp only [if_neg hi]
        exact ih rest' h3

lemma vdpauUpdateExisting_length (m : List SurfaceMapEntry) (img surf ctr : Nat)
    (m' : List SurfaceMapEntry) (h : vdpauUpdateExisting m img surf ctr = some m') :
    m'.length = m.length := by
  induction m generalizing m' with
  | nil => simp [vdpauUpdateExisting] at h
  | cons e rest ih =>
    simp only [vdpauUpdateExisting] at h
    by_cases he : e.image = img
    · rw [if_pos he] at h
      cases h
      simp
    · rw [if_neg he] at h
      cases hr : vdpauUpdateExisting rest img surf ctr with
      | none => rw [hr] at h; simp at h
      | some m'' =>
        rw [hr] at h
        simp only [Option.map_some'] at h
        cases h
        simp [ih m'' hr]

lemma getD_irrel {α : Type} (l : List α) (k : Nat) (d1 d2 : α) (h : k < l.length) :
    l.getD k d1 = l.getD k d2 := by
  induction l generalizing k with
  | nil => simp at h
  | cons e rest ih =>
    cases k with
    | zero => rfl
    | succ k' => simpa using ih k' (by simpa using h)

/-- `anv_vdpau_add_surface_mapping` with the cache record exploded, restated
for rewriting in proofs. -/
lemma vdpau_add_eq (map : List SurfaceMapEntry) (cap fc img surf : Nat) :
    anv_vdpau_add_surface_mapping ⟨map, cap, fc⟩ img surf =
      (match vdpauUpdateExisting map img surf (fc + 1) with
       | some m => (⟨m, cap, fc + 1⟩, none)
       | none =>
         if map.length < cap then
           (⟨map ++ [{ image := img, vdp_surface := surf, last_used_frame := fc + 1 }],
             cap, fc + 1⟩, none)
         else
           match map with
           | [] => (⟨map, cap, fc + 1⟩, none)
           | e :: rest =>
             (⟨(e :: rest).set (lruIndex e rest)
                 { image := img, vdp_surface := surf, last_used_frame := fc + 1 },
               cap, fc + 1⟩,
              if ((e :: rest).getD (lruIndex e rest) e).vdp_surface ≠ INVALID_HANDLE
              then some ((e :: rest).getD (lruIndex e rest) e).vdp_surface
              else none)) := rfl

lemma vdpau_add_capacity (c : VdpauCache) (img surf : Nat) :
    (anv_vdpau_add_surface_mapping c img surf).1.surface_map_capacity =
      c.surface_map_capacity := by
  rcases c with ⟨map, cap, fc⟩
  rw [vdpau_add_eq]
  cases hu : vdpauUpdateExisting map img surf (fc + 1) with
  | some m => rfl
  | none =>
    by_cases hlt : map.length < cap
    · simp [hlt]
    · simp only [if_neg hlt]
      cases map with
      | nil => rfl
      | cons e rest => rfl

lemma vdpau_add_length_le (c : VdpauCache) (img surf : Nat)
    (h : c.surface_map.length ≤ c.surface_map_capacity) :
    (anv_vdpau_add_surface_mapping c img surf).1.surface_map.length ≤
      c.surface_map_capacity := by
  rcases c with ⟨map, cap, fc⟩
  simp only at h
  rw [vdpau_add_eq]
  cases hu : vdpauUpdateExisting map img surf (fc + 1) with
  | some m =>
    simpa [vdpauUpdateExisting_length _ _ _ _ _ hu] using h
  | none =>
    by_cases hlt : map.length < cap
    · simp only [if_pos hlt]
      simp
      omega
    · simp only [if_neg hlt]
      cases map with
      | nil => simp
      | cons e rest => simpa [List.length_set] using h

/-- C1 counterexample input: a VA-API surface cache at capacity. -/
def c1CacheAtCapacity : VaapiCache :=
  { surface_map := [{ image := 1, va_surface := 10 }], surface_map_capacity := 1 }

/-- C1: the claim says an insert into a full Surface Cache evicts the
least-recently-used entry, releases its backend surface, and inserts the new
entry.  The VA-API cache (`anv_vaapi_add_surface_mapping`) does none of
this: at capacity the new mapping is silently dropped, so after inserting
image 2 into a full cache the cache is unchanged and image 2 is absent. -/
theorem C1_counterexample :
    (anv_vaapi_add_surface_mapping c1CacheAtCapacity 2 20).surface_map =
      [{ image := 1, va_surface := 10 }] ∧
    (anv_vaapi_add_surface_mapping c1CacheAtCapacity 2 20).surface_map.all
      (fun e => e.image ≠ 2) = true := by
  decide

/-- C1 (amended): for the VDPAU surface cache, `insert_or_update` behaves as
claimed: a present image has its handle replaced and timestamp refreshed; an
absent image is appended when under capacity; at capacity the entry with the
smallest `last_used_frame` (earliest array position on ties) is replaced and
its backend surface destroyed, and the size never exceeds the capacity (for
this insert, and hence for every sequence of inserts).  For the VA-API
surface cache the insert at capacity instead drops the new mapping, leaving
the cache unchanged, so its size also never exceeds its capacity. -/
theorem C1_theorem (c : VdpauCache) (img surf : Nat)
    (hlen : c.surface_map.length ≤ c.surface_map_capacity) :
    ((anv_vdpau_add_surface_mapping c img surf).1.surface_map.length ≤
        c.surface_map_capacity ∧
      (anv_vdpau_add_surface_mapping c img surf).1.surface_map_capacity =
        c.surface_map_capacity) ∧
    (∀ ops : List (Nat × Nat),
      ((ops.foldl (fun d p => (anv_vdpau_add_surface_mapping d p.1 p.2).1)
          c).surface_map.length ≤ c.surface_map_capacity)) ∧
    (∀ k, k < c.surface_map.length →
      (c.surface_map.getD k defaultEntry).image = img →
      (∀ j < k, (c.surface_map.getD j defaultEntry).image ≠ img) →
      anv_vdpau_add_surface_mapping c img surf =
        ({ c with
            surface_map := c.surface_map.set k
              { image := img, vdp_surface := surf,
                last_used_frame := c.frame_counter + 1 },
            frame_counter := c.frame_counter + 1 }, none)) ∧
    ((∀ e ∈ c.surface_map, e.image ≠ img) →
      c.surface_map.length < c.surface_map_capacity →
      anv_vdpau_add_surface_mapping c img surf =
        ({ c with
            surface_map := c.surface_map ++
              [{ image := img, vdp_surface := surf,
                 last_used_frame := c.frame_counter + 1 }],
            frame_counter := c.frame_counter + 1 }, none)) ∧
    (∀ e rest, c.surface_map = e :: rest →
      (∀ x ∈ c.surface_map, x.image ≠ img) →
      ¬ c.surface_map.length < c.surface_map_capacity →
      ((anv_vdpau_add_surface_mapping c img surf).1.surface_map =
          c.surface_map.set (lruIndex e rest)
            { image := img, vdp_surface := surf,
              last_used_frame := c.frame_counter + 1 } ∧
        (anv_vdpau_add_surface_mapping c img surf).2 =
          (if (c.surface_map.getD (lruIndex e rest) defaultEntry).vdp_surface ≠
              INVALID_HANDLE
           then some (c.surface_map.getD (lruIndex e rest) defaultEntry).vdp_surface
           else none) ∧
        lruIndex e rest < c.surface_map.length ∧
        (∀ j < c.surface_map.length,
          (c.surface_map.getD (lruIndex e rest) defaultEntry).last_used_frame ≤
            (c.surface_map.getD j defaultEntry).last_used_frame) ∧
        (∀ j < lruIndex e rest,
          (c.surface_map.getD (lruIndex e rest) defaultEntry).last_used_frame <
            (c.surface_map.getD j defaultEntry).last_used_frame))) ∧
    (∀ (vc : VaapiCache) (img2 surf2 : Nat),
      (∀ e ∈ vc.surface_map, e.image ≠ img2) →
      ¬ vc.surface_map.length < vc.surface_map_capacity →
      anv_vaapi_add_surface_mapping vc img2 surf2 = vc) := by
  refine ⟨⟨vdpau_add_length_le c img surf hlen, vdpau_add_capacity c img surf⟩,
    ?_, ?_, ?_, ?_, ?_⟩
  · intro ops
    induction ops generalizing c with
    | nil => simpa using hlen
    | cons p rest ih =>
      simp only [List.foldl_cons]
      have h1 := vdpau_add_length_le c p.1 p.2 hlen
      have h2 := vdpau_add_capacity c p.1 p.2
      have := ih (anv_vdpau_add_surface_mapping c p.1 p.2).1 (h2 ▸ h1)
      rwa [h2] at this
  · intro k hk him hfirst
    rcases c with ⟨map, cap, fc⟩
    rw [vdpau_add_eq,
      vdpauUpdateExisting_eq_some map img surf (fc + 1) k hk him hfirst]
  · intro habs hlt
    rcases c with ⟨map, cap, fc⟩
    rw [vdpau_add_eq,
      vdpauUpdateExisting_eq_none map img surf (fc + 1) habs, if_pos hlt]
  · intro e rest hm habs hlt
    rcases c with ⟨map, cap, fc⟩
    simp only at hm
    subst hm
    have hud := vdpauUpdateExisting_eq_none (e :: rest) img surf (fc + 1) habs
    have hspec := lruIndex_spec e rest
    have hvictim : (e :: rest).getD (lruIndex e rest) e =
        (e :: rest).getD (lruIndex e rest) defaultEntry :=
      getD_irrel (e :: rest) (lruIndex e rest) e defaultEntry hspec.1
    refine ⟨?_, ?_, hspec.1, ?_, ?_⟩
    · rw [vdpau_add_eq, hud]
      simp only [if_neg hlt]
    · rw [vdpau_add_eq, hud]
      simp only [if_neg hlt, hvictim]
    · intro j hj
      exact hspec.2.1 ▸ hspec.2.2.1 j hj
    · intro j hj
      exact hspec.2.1 ▸ hspec.2.2.2 j hj
  · intro vc img2 surf2 habs hfull
    rcases vc with ⟨vmap, vcap⟩
    show anv_vaapi_add_surface_mapping ⟨vmap, vcap⟩ img2 surf2 = _
    unfold anv_vaapi_add_surface_mapping
    rw [vaapiUpdateExisting_eq_none vmap img2 surf2 habs]
    simp only at hfull
    simp [hfull]

/-- Witness for C1: a concrete VDPAU cache at capacity 2 holding images 1
(timestamp 4) and 2 (timestamp 3); inserting image 3 evicts the entry for
image 2 (smallest timestamp) and destroys surface 20. -/
theorem C1_witness :
    (anv_vdpau_add_surface_mapping
        { surface_map := [{ image := 1, vdp_surface := 10, last_used_frame := 4 },
                          { image := 2, vdp_surface := 20, last_used_frame := 3 }],
          surface_map_capacity := 2, frame_counter := 5 } 3 30).1.surface_map.length ≤ 2 ∧
    (anv_vdpau_add_surface_mapping
        { surface_map := [{ image := 1, vdp_surface := 10, last_used_frame := 4 },
                          { image := 2, vdp_surface := 20, last_used_frame := 3 }],
          surface_map_capacity := 2, frame_counter := 5 } 3 30).1.surface_map =
      [{ image := 1, vdp_surface := 10, last_used_frame := 4 },
       { image := 3, vdp_surface := 30, last_used_frame := 6 }] ∧
    (anv_vdpau_add_surface_mapping
        { surface_map := [{ image := 1, vdp_surface := 10, last_used_frame := 4 },
                          { image := 2, vdp_surface := 20, last_used_frame := 3 }],
          surface_map_capacity := 2, frame_counter := 5 } 3 30).2 = some 20 := by
  have h := C1_theorem
    { surface_map := [{ image := 1, vdp_surface := 10, last_used_frame := 4 },
                      { image := 2, vdp_surface := 20, last_used_frame := 3 }],
      surface_map_capacity := 2, frame_counter := 5 } 3 30 (by decide)
  have h4 := h.2.2.2.2.1 { image := 1, vdp_surface := 10, last_used_frame := 4 }
    [{ image := 2, vdp_surface := 20, last_used_frame := 3 }] rfl
    (by decide) (by decide)
  refine ⟨h.1.1, ?_, ?_⟩
  · rw [h4.1]
    decide
  · rw [h4.2.1]
    decide

/-- C9: a Surface Cache lookup hit returns the cached handle and refreshes
that entry's `last_used_frame` to the current `frame_counter` (read counts as
a use), and LRU eviction never selects an entry while another entry with a
strictly older timestamp remains in the cache — so a lookup followed
immediately by eviction-triggering inserts never evicts the just-looked-up
entry ahead of strictly older entries. -/
theorem C9_theorem (c : VdpauCache) (img : Nat) (k : Nat)
    (hk : k < c.surface_map.length)
    (him : (c.surface_map.getD k defaultEntry).image = img)
    (hfirst : ∀ j < k, (c.surface_map.getD j defaultEntry).image ≠ img) :
    (anv_vdpau_lookup_surface c img).2 =
      (c.surface_map.getD k defaultEntry).vdp_surface ∧
    ((anv_vdpau_lookup_surface c img).1.surface_map =
        c.surface_map.set k
          ({ c.surface_map.getD k defaultEntry with
             last_used_frame := c.frame_counter }) ∧
      (anv_vdpau_lookup_surface c img).1.surface_map_capacity =
        c.surface_map_capacity ∧
      (anv_vdpau_lookup_surface c img).1.frame_counter = c.frame_counter) ∧
    (∀ (e : SurfaceMapEntry) (rest : List SurfaceMapEntry) (i j : Nat),
      i < (e :: rest).length → j < (e :: rest).length →
      ((e :: rest).getD j defaultEntry).last_used_frame <
        ((e :: rest).getD i defaultEntry).last_used_frame →
      lruIndex e rest ≠ i) := by
  have hgo := vdpauLookupGo_hit c.surface_map img c.frame_counter k hk him hfirst
  refine ⟨?_, ?_, ?_⟩
  · show (vdpauLookupGo c.surface_map img c.frame_counter).2 = _
    rw [hgo]
  · refine ⟨?_, rfl, rfl⟩
    show (vdpauLookupGo c.surface_map img c.frame_counter).1 = _
    rw [hgo]
  · intro e rest i j hi hj holder
    have hspec := lruIndex_spec e rest
    intro hcontra
    subst hcontra
    have hmin := hspec.2.1 ▸ hspec.2.2.1 j hj
    omega

/-- Witness for C9: cache with image 1 (timestamp 5) and image 2
(timestamp 3) at current logical time 7; looking up image 1 returns
surface 10 and refreshes its timestamp to 7, and the LRU victim in the
refreshed cache is index 1 (the strictly older entry), not index 0. -/
theorem C9_witness :
    (anv_vdpau_lookup_surface
        { surface_map := [{ image := 1, vdp_surface := 10, last_used_frame := 5 },
                          { image := 2, vdp_surface := 20, last_used_frame := 3 }],
          surface_map_capacity := 2, frame_counter := 7 } 1).2 = 10 ∧
    (anv_vdpau_lookup_surface
        { surface_map := [{ image := 1, vdp_surface := 10, last_used_frame := 5 },
                          { image := 2, vdp_surface := 20, last_used_frame := 3 }],
          surface_map_capacity := 2, frame_counter := 7 } 1).1.surface_map =
      [{ image := 1, vdp_surface := 10, last_used_frame := 7 },
       { image := 2, vdp_surface := 20, last_used_frame := 3 }] ∧
    lruIndex { image := 1, vdp_surface := 10, last_used_frame := 7 }
      [{ image := 2, vdp_surface := 20, last_used_frame := 3 }] ≠ 0 := by
  have h := C9_theorem
    { surface_map := [{ image := 1, vdp_surface := 10, last_used_frame := 5 },
                      { image := 2, vdp_surface := 20, last_used_frame := 3 }],
      surface_map_capacity := 2, frame_counter := 7 } 1 0 (by decide) (by decide)
    (by intro j hj; omega)
  refine ⟨h.1, ?_, ?_⟩
  · rw [h.2.1.1]
    decide
  · exact h.2.2 { image := 1, vdp_surface := 10, last_used_frame := 7 }
      [{ image := 2, vdp_surface := 20, last_used_frame := 3 }] 0 1
      (by decide) (by decide) (by decide)

/-! ## Vulkan-side input structures for H.264 parameter translation

These model the slices of `VkVideoDecodeInfoKHR`,
`VkVideoDecodeH264PictureInfoKHR`, `vk_video_session_parameters` and the
`StdVideoH264*` structures that the two translators read. -/

structure StdVideoH264ScalingLists where
  scalingList4x4 : List (List Nat)
  scalingList8x8 : List (List Nat)
deriving DecidableEq, Repr

structure H264Sps where
  seq_parameter_set_id : Nat
  max_num_ref_frames : Nat
  frame_mbs_only_flag : Bool
  mb_adaptive_frame_field_flag : Bool
  log2_max_frame_num_minus4 : Nat
  pic_order_cnt_type : Nat
  log2_max_pic_order_cnt_lsb_minus4 : Nat
  delta_pic_order_always_zero_flag : Bool
  direct_8x8_inference_flag : Bool
  chroma_format_idc : Nat
  gaps_in_frame_num_value_allowed_flag : Bool
  pic_width_in_mbs_minus1 : Nat
  pic_height_in_map_units_minus1 : Nat
  bit_depth_luma_minus8 : Nat
  bit_depth_chroma_minus8 : Nat
deriving DecidableEq, Repr

structure H264Pps where
  pic_parameter_set_id : Nat
  entropy_coding_mode_flag : Bool
  bottom_field_pic_order_in_frame_present_flag : Bool
  weighted_pred_flag : Bool
  weighted_bipred_idc : Nat
  deblocking_filter_control_present_flag : Bool
  redundant_pic_cnt_present_flag : Bool
  transform_8x8_mode_flag : Bool
  constrained_intra_pred_flag : Bool
  chroma_qp_index_offset : Int
  second_chroma_qp_index_offset : Int
  pic_init_qp_minus26 : Int
  num_ref_idx_l0_default_active_minus1 : Nat
  num_ref_idx_l1_default_active_minus1 : Nat
  pScalingLists : Option StdVideoH264ScalingLists
deriving DecidableEq, Repr

structure VideoSessionParams where
  h264_sps : List H264Sps
  h264_pps : List H264Pps
deriving DecidableEq, Repr

structure StdPictureInfo where
  seq_parameter_set_id : Nat
  pic_parameter_set_id : Nat
  frame_num : Nat
  field_pic_flag : Bool
  bottom_field_flag : Bool
  is_reference : Bool
  PicOrderCnt0 : Int
  PicOrderCnt1 : Int
deriving DecidableEq, Repr

structure H264PictureInfo where
  std : StdPictureInfo
  sliceCount : Nat
  pSliceOffsets : List Nat
deriving DecidableEq, Repr

structure StdH264ReferenceInfo where
  FrameNum : Nat
  used_for_long_term_reference : Bool
  top_field_flag : Bool
  bottom_field_flag : Bool
  is_non_existing : Bool
  PicOrderCnt0 : Int
  PicOrderCnt1 : Int
deriving DecidableEq, Repr

/-- One `VkVideoReferenceSlotInfoKHR` as the translators see it:
`slotIndexValid` is `slotIndex >= 0`; `hasPictureResource` is
`pPictureResource != NULL`; `dpb` is `some` when both the
`VkVideoDecodeH264DpbSlotInfoKHR` pNext struct and its
`pStdReferenceInfo` are present; `image` is `some` when the image-view
binding resolves to an image. -/
structure RefSlot where
  slotIndexValid : Bool
  hasPictureResource : Bool
  dpb : Option StdH264ReferenceInfo
  image : Option Nat
deriving DecidableEq, Repr

/-- The reference-slot fields of `VkVideoDecodeInfoKHR`. -/
structure DecodeInfo where
  referenceSlots : List RefSlot
  setupReferenceSlotValid : Bool
deriving DecidableEq, Repr

/-! ## VDPAU H.264 picture translation (anv_video_vdpau_h264.c) -/

structure VdpReferenceFrameH264 where
  surface : Nat
  is_long_term : Bool
  top_is_reference : Bool
  bottom_is_reference : Bool
  field_order_cnt0 : Int
  field_order_cnt1 : Int
  frame_idx : Nat
deriving DecidableEq, Repr

/-- The invalid reference entry the translator initialises all 16 slots
with. -/
def invalidVdpRefFrame : VdpReferenceFrameH264 :=
  { surface := INVALID_HANDLE, is_long_term := false, top_is_reference := false,
    bottom_is_reference := false, field_order_cnt0 := 0, field_order_cnt1 := 0,
    frame_idx := 0 }

/-- `VdpPictureInfoH264` with the fields the translator writes; the
defaults model the initial `memset(vdp_pic, 0, ...)`. -/
structure VdpPictureInfoH264 where
  num_ref_frames : Nat := 0
  frame_mbs_only_flag : Bool := false
  mb_adaptive_frame_field_flag : Bool := false
  log2_max_frame_num_minus4 : Nat := 0
  pic_order_cnt_type : Nat := 0
  log2_max_pic_order_cnt_lsb_minus4 : Nat := 0
  delta_pic_order_always_zero_flag : Bool := false
  direct_8x8_inference_flag : Bool := false
  entropy_coding_mode_flag : Bool := false
  pic_order_present_flag : Bool := false
  weighted_pred_flag : Bool := false
  weighted_bipred_idc : Nat := 0
  deblocking_filter_control_present_flag : Bool := false
  redundant_pic_cnt_present_flag : Bool := false
  transform_8x8_mode_flag : Bool := false
  constrained_intra_pred_flag : Bool := false
  chroma_qp_index_offset : Int := 0
  second_chroma_qp_index_offset : Int := 0
  pic_init_qp_minus26 : Int := 0
  num_ref_idx_l0_active_minus1 : Nat := 0
  num_ref_idx_l1_active_minus1 : Nat := 0
  slice_count : Nat := 0
  frame_num : Nat := 0
  field_pic_flag : Bool := false
  bottom_field_flag : Bool := false
  is_reference : Bool := false
  field_order_cnt0 : Int := 0
  field_order_cnt1 : Int := 0
  scaling_lists_4x4 : List (List Nat) := List.replicate 6 (List.replicate 16 0)
  scaling_lists_8x8 : List (List Nat) := List.replicate 2 (List.replicate 64 0)
  referenceFrames : List VdpReferenceFrameH264 := List.replicate 16 invalidVdpRefFrame
deriving DecidableEq, Repr

/-- The element-wise scaling-list copy loops (fixed 6x16 / 2x64 shapes). -/
def copyScaling (rows cols : Nat) (src : List (List Nat)) : List (List Nat) :=
  (List.range rows).map (fun i => (List.range cols).map (fun j =>
    (src.getD i []).getD j 0))

/-- The flat (all-16) scaling lists written by
`memset(vdp_pic->scaling_lists_4x4, 16, ...)`. -/
def flatScaling4x4 : List (List Nat) := List.replicate 6 (List.replicate 16 16)

def flatScaling8x8 : List (List Nat) := List.replicate 2 (List.replicate 64 16)

/-- The reference-frame population loop of
`anv_vdpau_translate_h264_picture_params` (lines 162-211): walk the
reference slots while `ref_idx < 16`, skipping slots with an invalid slot
index, a missing picture resource, missing DPB slot info, an unresolvable
image, or an image with no cached VDPAU surface.  The lookup is
`anv_vdpau_lookup_surface`, which also refreshes the entry's timestamp, so
the cache is carried through. -/
def vdpauBuildRefs (c : VdpauCache) (slots : List RefSlot) (refIdx : Nat) :
    List VdpReferenceFrameH264 × VdpauCache :=
  match slots with
  | [] => ([], c)
  | slot :: rest =>
    if 16 ≤ refIdx then ([], c)
    else if ¬slot.slotIndexValid ∨ ¬slot.hasPictureResource then
      vdpauBuildRefs c rest refIdx
    else
      match slot.dpb with
      | none => vdpauBuildRefs c rest refIdx
      | some refInfo =>
        match slot.image with
        | none => vdpauBuildRefs c rest refIdx
        | some img =>
          let lk := anv_vdpau_lookup_surface c img
          if lk.2 = INVALID_HANDLE then vdpauBuildRefs lk.1 rest refIdx
          else
            let ref : VdpReferenceFrameH264 :=
              { surface := lk.2
                frame_idx := refInfo.FrameNum
                is_long_term := refInfo.used_for_long_term_reference
                top_is_reference :=
                  if ¬refInfo.top_field_flag ∧ ¬refInfo.bottom_field_flag then true
                  else refInfo.top_field_flag
                bottom_is_reference :=
                  if ¬refInfo.top_field_flag ∧ ¬refInfo.bottom_field_flag then true
                  else refInfo.bottom_field_flag
                field_order_cnt0 := refInfo.PicOrderCnt0
                field_order_cnt1 := refInfo.PicOrderCnt1 }
            let r := vdpauBuildRefs lk.1 rest (refIdx + 1)
            (ref :: r.1, r.2)

/-- Write the populated reference list over the 16 invalid-initialised
entries. -/
def padRefs16 (l : List VdpReferenceFrameH264) : List VdpReferenceFrameH264 :=
  l ++ List.replicate (16 - l.length) invalidVdpRefFrame

/-- `anv_vdpau_translate_h264_picture_params` (anv_video_vdpau_h264.c:54-212).
SPS and PPS are resolved by linear search on their ids; when either is
missing the function returns the zero-initialised structure unchanged
(the early `return` after the `memset`).  Returns the picture info and the
cache (updated by the timestamp-refreshing reference lookups). -/
def anv_vdpau_translate_h264_picture_params (decode_info : DecodeInfo)
    (h264_pic_info : H264PictureInfo) (params : VideoSessionParams)
    (c : VdpauCache) : VdpPictureInfoH264 × VdpauCache :=
  let sps? := params.h264_sps.find?
    (fun s => s.seq_parameter_set_id == h264_pic_info.std.seq_parameter_set_id)
  let pps? := params.h264_pps.find?
    (fun p => p.pic_parameter_set_id == h264_pic_info.std.pic_parameter_set_id)
  match sps?, pps? with
  | some sps, some pps =>
    let r := vdpauBuildRefs c decode_info.referenceSlots 0
    ({ num_ref_frames := sps.max_num_ref_frames
       frame_mbs_only_flag := sps.frame_mbs_only_flag
       mb_adaptive_frame_field_flag := sps.mb_adaptive_frame_field_flag
       log2_max_frame_num_minus4 := sps.log2_max_frame_num_minus4
       pic_order_cnt_type := sps.pic_order_cnt_type
       log2_max_pic_order_cnt_lsb_minus4 := sps.log2_max_pic_order_cnt_lsb_minus4
       delta_pic_order_always_zero_flag := sps.delta_pic_order_always_zero_flag
       direct_8x8_inference_flag := sps.direct_8x8_inference_flag
       entropy_coding_mode_flag := pps.entropy_coding_mode_flag
       pic_order_present_flag := pps.bottom_field_pic_order_in_frame_present_flag
       weighted_pred_flag := pps.weighted_pred_flag
       weighted_bipred_idc := pps.weighted_bipred_idc
       deblocking_filter_control_present_flag :=
         pps.deblocking_filter_control_present_flag
       redundant_pic_cnt_present_flag := pps.redundant_pic_cnt_present_flag
       transform_8x8_mode_flag := pps.transform_8x8_mode_flag
       constrained_intra_pred_flag := pps.constrained_intra_pred_flag
       chroma_qp_index_offset := pps.chroma_qp_index_offset
       second_chroma_qp_index_offset := pps.second_chroma_qp_index_offset
       pic_init_qp_minus26 := pps.pic_init_qp_minus26
       num_ref_idx_l0_active_minus1 := pps.num_ref_idx_l0_default_active_minus1
       num_ref_idx_l1_active_minus1 := pps.num_ref_idx_l1_default_active_minus1
       slice_count := h264_pic_info.sliceCount
       frame_num := h264_pic_info.std.frame_num
       field_pic_flag := h264_pic_info.std.field_pic_flag
       bottom_field_flag := h264_pic_info.std.bottom_field_flag
       is_reference := h264_pic_info.std.is_reference
       field_order_cnt0 := h264_pic_info.std.PicOrderCnt0
       field_order_cnt1 := h264_pic_info.std.PicOrderCnt1
       scaling_lists_4x4 :=
         match pps.pScalingLists with
         | some sl => copyScaling 6 16 sl.scalingList4x4
         | none => flatScaling4x4
       scaling_lists_8x8 :=
         match pps.pScalingLists with
         | some sl => copyScaling 2 64 sl.scalingList8x8
         | none => flatScaling8x8
       referenceFrames := padRefs16 r.1 }, r.2)
  | _, _ => ({}, c)

/-! ## VA-API H.264 picture/slice translation (anv_video_vaapi_h264.c) -/

def VA_PICTURE_H264_INVALID : Nat := 1

def VA_PICTURE_H264_TOP_FIELD : Nat := 2

def VA_PICTURE_H264_BOTTOM_FIELD : Nat := 4

def VA_PICTURE_H264_SHORT_TERM_REFERENCE : Nat := 8

def VA_PICTURE_H264_LONG_TERM_REFERENCE : Nat := 16

def VA_SLICE_DATA_FLAG_ALL : Nat := 0

structure VAPictureH264 where
  picture_id : Nat
  frame_idx : Nat
  flags : Nat
  TopFieldOrderCnt : Int
  BottomFieldOrderCnt : Int
deriving DecidableEq, Repr

/-- A zeroed `VAPictureH264` (from the `memset` of the containing
structure). -/
def zeroVaPicture : VAPictureH264 :=
  { picture_id := 0, frame_idx := 0, flags := 0,
    TopFieldOrderCnt := 0, BottomFieldOrderCnt := 0 }

/-- The invalid reference entry the translator writes into all 16 DPB
slots before populating them. -/
def invalidVaPicture : VAPictureH264 :=
  { picture_id := INVALID_HANDLE, frame_idx := 0, flags := VA_PICTURE_H264_INVALID,
    TopFieldOrderCnt := 0, BottomFieldOrderCnt := 0 }

/-- `init_va_picture` (anv_video_vaapi_h264.c:116-127). -/
def init_va_picture (surface_id frame_idx flags : Nat) : VAPictureH264 :=
  { picture_id := surface_id, frame_idx := frame_idx, flags := flags,
    TopFieldOrderCnt := 0, BottomFieldOrderCnt := 0 }

/-- `VAPictureParameterBufferH264` with the fields the translator writes.
Note: this structure has NO scaling-list fields — VA-API carries scaling
lists in a separate `VAIQMatrixBufferH264`, which this bridge never
creates.  Defaults model the initial `memset(va_pic, 0, ...)`. -/
structure VAPictureParameterBufferH264 where
  chroma_format_idc : Nat := 0
  residual_colour_transform_flag : Bool := false
  gaps_in_frame_num_value_allowed_flag : Bool := false
  frame_mbs_only_flag : Bool := false
  mb_adaptive_frame_field_flag : Bool := false
  direct_8x8_inference_flag : Bool := false
  MinLumaBiPredSize8x8 : Nat := 0
  log2_max_frame_num_minus4 : Nat := 0
  pic_order_cnt_type : Nat := 0
  log2_max_pic_order_cnt_lsb_minus4 : Nat := 0
  delta_pic_order_always_zero_flag : Bool := false
  num_ref_frames : Nat := 0
  picture_width_in_mbs_minus1 : Nat := 0
  picture_height_in_mbs_minus1 : Nat := 0
  bit_depth_luma_minus8 : Nat := 0
  bit_depth_chroma_minus8 : Nat := 0
  entropy_coding_mode_flag : Bool := false
  weighted_pred_flag : Bool := false
  weighted_bipred_idc : Nat := 0
  transform_8x8_mode_flag : Bool := false
  field_pic_flag : Bool := false
  constrained_intra_pred_flag : Bool := false
  pic_order_present_flag : Bool := false
  deblocking_filter_control_present_flag : Bool := false
  redundant_pic_cnt_present_flag : Bool := false
  reference_pic_flag : Bool := false
  pic_init_qp_minus26 : Int := 0
  chroma_qp_index_offset : Int := 0
  second_chroma_qp_index_offset : Int := 0
  CurrPic : VAPictureH264 := zeroVaPicture
  ReferenceFrames : List VAPictureH264 := List.replicate 16 zeroVaPicture
  frame_num : Nat := 0
deriving DecidableEq, Repr

/-- The DPB population loop of `anv_vaapi_translate_h264_picture_params`
(lines 223-325): walk the reference slots while `dpb_idx < 16`, skipping
slots with an invalid slot index, missing picture resource, missing DPB
slot info, unresolvable image, or image with no cached VA surface
(`anv_vaapi_lookup_surface`, a pure read). -/
def vaapiBuildDpb (c : VaapiCache) (slots : List RefSlot) (dpbIdx : Nat) :
    List VAPictureH264 :=
  match slots with
  | [] => []
  | slot :: rest =>
    if 16 ≤ dpbIdx then []
    else if ¬slot.slotIndexValid ∨ ¬slot.hasPictureResource then
      vaapiBuildDpb c rest dpbIdx
    else
      match slot.dpb with
      | none => vaapiBuildDpb c rest dpbIdx
      | some refInfo =>
        match slot.image with
        | none => vaapiBuildDpb c rest dpbIdx
        | some img =>
          let surf := anv_vaapi_lookup_surface c img
          if surf = INVALID_HANDLE then vaapiBuildDpb c rest dpbIdx
          else
            let base := init_va_picture surf refInfo.FrameNum
              (if refInfo.used_for_long_term_reference then
                 VA_PICTURE_H264_LONG_TERM_REFERENCE
               else VA_PICTURE_H264_SHORT_TERM_REFERENCE)
            let withPoc := { base with
              TopFieldOrderCnt := refInfo.PicOrderCnt0
              BottomFieldOrderCnt := refInfo.PicOrderCnt1 }
            let entry :=
              if refInfo.top_field_flag ∧ ¬refInfo.bottom_field_flag then
                { withPoc with flags := withPoc.flags ||| VA_PICTURE_H264_TOP_FIELD }
              else if ¬refInfo.top_field_flag ∧ refInfo.bottom_field_flag then
                { withPoc with flags := withPoc.flags ||| VA_PICTURE_H264_BOTTOM_FIELD }
              else withPoc
            entry :: vaapiBuildDpb c rest (dpbIdx + 1)

/-- Write the populated DPB entries over the 16 invalid-initialised
slots. -/
def padDpb16 (l : List VAPictureH264) : List VAPictureH264 :=
  l ++ List.replicate (16 - l.length) invalidVaPicture

/-- `anv_vaapi_translate_h264_picture_params`
(anv_video_vaapi_h264.c:132-332).  When the SPS or PPS linear search fails,
the function fills only `CurrPic.picture_id`/`CurrPic.flags` of the zeroed
structure (safe defaults) and returns; otherwise it translates SPS and PPS
fields, builds the current-picture descriptor, and packs the DPB densely
in reference-slot order. -/
def anv_vaapi_translate_h264_picture_params (decode_info : DecodeInfo)
    (h264_pic_info : H264PictureInfo) (params : VideoSessionParams)
    (c : VaapiCache) (dst_surface_id : Nat) : VAPictureParameterBufferH264 :=
  let sps? := params.h264_sps.find?
    (fun s => s.seq_parameter_set_id == h264_pic_info.std.seq_parameter_set_id)
  let pps? := params.h264_pps.find?
    (fun p => p.pic_parameter_set_id == h264_pic_info.std.pic_parameter_set_id)
  match sps?, pps? with
  | some sps, some pps =>
    let currBase := init_va_picture dst_surface_id h264_pic_info.std.frame_num 0
    let curr := { currBase with
      TopFieldOrderCnt := h264_pic_info.std.PicOrderCnt0
      BottomFieldOrderCnt := h264_pic_info.std.PicOrderCnt1
      flags := if decode_info.setupReferenceSlotValid then
          VA_PICTURE_H264_SHORT_TERM_REFERENCE
        else 0 }
    { chroma_format_idc := sps.chroma_format_idc
      residual_colour_transform_flag := false
      gaps_in_frame_num_value_allowed_flag :=
        sps.gaps_in_frame_num_value_allowed_flag
      frame_mbs_only_flag := sps.frame_mbs_only_flag
      mb_adaptive_frame_field_flag := sps.mb_adaptive_frame_field_flag
      direct_8x8_inference_flag := sps.direct_8x8_inference_flag
      MinLumaBiPredSize8x8 := 0
      log2_max_frame_num_minus4 := sps.log2_max_frame_num_minus4
      pic_order_cnt_type := sps.pic_order_cnt_type
      log2_max_pic_order_cnt_lsb_minus4 := sps.log2_max_pic_order_cnt_lsb_minus4
      delta_pic_order_always_zero_flag := sps.delta_pic_order_always_zero_flag
      num_ref_frames := sps.max_num_ref_frames
      picture_width_in_mbs_minus1 := sps.pic_width_in_mbs_minus1
      picture_height_in_mbs_minus1 :=
        if sps.frame_mbs_only_flag then sps.pic_height_in_map_units_minus1
        else (sps.pic_height_in_map_units_minus1 + 1) * 2 - 1
      bit_depth_luma_minus8 := sps.bit_depth_luma_minus8
      bit_depth_chroma_minus8 := sps.bit_depth_chroma_minus8
      entropy_coding_mode_flag := pps.entropy_coding_mode_flag
      weighted_pred_flag := pps.weighted_pred_flag
      weighted_bipred_idc := pps.weighted_bipred_idc
      transform_8x8_mode_flag := pps.transform_8x8_mode_flag
      field_pic_flag := false
      constrained_intra_pred_flag := pps.constrained_intra_pred_flag
      pic_order_present_flag := pps.bottom_field_pic_order_in_frame_present_flag
      deblocking_filter_control_present_flag :=
        pps.deblocking_filter_control_present_flag
      redundant_pic_cnt_present_flag := pps.redundant_pic_cnt_present_flag
      reference_pic_flag := true
      pic_init_qp_minus26 := pps.pic_init_qp_minus26
      chroma_qp_index_offset := pps.chroma_qp_index_offset
      second_chroma_qp_index_offset := pps.second_chroma_qp_index_offset
      CurrPic := curr
      ReferenceFrames := padDpb16 (vaapiBuildDpb c decode_info.referenceSlots 0)
      frame_num := h264_pic_info.std.frame_num }
  | _, _ =>
    { CurrPic := { zeroVaPicture with
        picture_id := dst_surface_id, flags := VA_PICTURE_H264_INVALID } }

/-- `VASliceParameterBufferH264` with the fields the slice translator
writes. -/
structure VASliceParameterBufferH264 where
  slice_data_size : Nat := 0
  slice_data_offset : Nat := 0
  slice_data_flag : Nat := 0
  RefPicList0 : List VAPictureH264 := List.replicate 32 zeroVaPicture
  RefPicList1 : List VAPictureH264 := List.replicate 32 zeroVaPicture
deriving DecidableEq, Repr

/-- The RefPicList construction loop of
`anv_vaapi_translate_h264_slice_params` (lines 385-409): walk the 16 DPB
entries, stop at the first invalid one, and copy each remaining valid entry
into the flat list while `ref_count < 32`. -/
def vaapiBuildRefPicList (refs : List VAPictureH264) (refCount : Nat) :
    List VAPictureH264 :=
  match refs with
  | [] => []
  | r :: rest =>
    if r.picture_id = INVALID_HANDLE ∨ r.flags &&& VA_PICTURE_H264_INVALID ≠ 0 then
      []
    else if refCount < 32 then
      r :: vaapiBuildRefPicList rest (refCount + 1)
    else
      vaapiBuildRefPicList rest refCount

/-- Write the flattened list over the 32 invalid-initialised entries. -/
def padRefList32 (l : List VAPictureH264) : List VAPictureH264 :=
  l.take 32 ++ List.replicate (32 - l.length) invalidVaPicture

/-- `anv_vaapi_translate_h264_slice_params`
(anv_video_vaapi_h264.c:349-421). -/
def anv_vaapi_translate_h264_slice_params (va_pic : VAPictureParameterBufferH264)
    (slice_offset slice_size : Nat) : VASliceParameterBufferH264 :=
  let flat := vaapiBuildRefPicList (va_pic.ReferenceFrames.take 16) 0
  { slice_data_size := slice_size
    slice_data_offset := slice_offset
    slice_data_flag := VA_SLICE_DATA_FLAG_ALL
    RefPicList0 := padRefList32 flat
    RefPicList1 := padRefList32 flat }

/-! ## Reference-list construction: specification (C4) -/

/-- Which VDPAU reference entry a slot resolves to, as a pure function of
the slot and the cache contents (`none` = the slot is skipped). -/
def vdpauResolveSlot (m : List SurfaceMapEntry) (slot : RefSlot) :
    Option VdpReferenceFrameH264 :=
  if ¬slot.slotIndexValid ∨ ¬slot.hasPictureResource then none
  else
    match slot.dpb, slot.image with
    | some refInfo, some img =>
      let surf := vdpauLookupValue m img
      if surf = INVALID_HANDLE then none
      else some
        { surface := surf
          frame_idx := refInfo.FrameNum
          is_long_term := refInfo.used_for_long_term_reference
          top_is_reference :=
            if ¬refInfo.top_field_flag ∧ ¬refInfo.bottom_field_flag then true
            else refInfo.top_field_flag
          bottom_is_reference :=
            if ¬refInfo.top_field_flag ∧ ¬refInfo.bottom_field_flag then true
            else refInfo.bottom_field_flag
          field_order_cnt0 := refInfo.PicOrderCnt0
          field_order_cnt1 := refInfo.PicOrderCnt1 }
    | _, _ => none

/-- Which VA-API DPB entry a slot resolves to. -/
def vaapiResolveSlot (c : VaapiCache) (slot : RefSlot) : Option VAPictureH264 :=
  if ¬slot.slotIndexValid ∨ ¬slot.hasPictureResource then none
  else
    match slot.dpb, slot.image with
    | some refInfo, some img =>
      let surf := anv_vaapi_lookup_surface c img
      if surf = INVALID_HANDLE then none
      else
        let base := init_va_picture surf refInfo.FrameNum
          (if refInfo.used_for_long_term_reference then
             VA_PICTURE_H264_LONG_TERM_REFERENCE
           else VA_PICTURE_H264_SHORT_TERM_REFERENCE)
        let withPoc := { base with
          TopFieldOrderCnt := refInfo.PicOrderCnt0
          BottomFieldOrderCnt := refInfo.PicOrderCnt1 }
        some (if refInfo.top_field_flag ∧ ¬refInfo.bottom_field_flag then
            { withPoc with flags := withPoc.flags ||| VA_PICTURE_H264_TOP_FIELD }
          else if ¬refInfo.top_field_flag ∧ refInfo.bottom_field_flag then
            { withPoc with flags := withPoc.flags ||| VA_PICTURE_H264_BOTTOM_FIELD }
          else withPoc)
    | _, _ => none

lemma vdpauResolveSlot_congr (m1 m2 : List SurfaceMapEntry) (slot : RefSlot)
    (h : stripTs m1 = stripTs m2) :
    vdpauResolveSlot m1 slot = vdpauResolveSlot m2 slot := by
  obtain ⟨sv, hp, dpb, image⟩ := slot
  unfold vdpauResolveSlot
  cases dpb with
  | none => rfl
  | some refInfo =>
    cases image with
    | none => rfl
    | some img =>
      simp only [vdpauLookupValue_congr m1 m2 img h]

lemma vdpauBuildRefs_fst (slots : List RefSlot) :
    ∀ (c : VdpauCache) (refIdx : Nat),
      (vdpauBuildRefs c slots refIdx).1 =
        (slots.filterMap (vdpauResolveSlot c.surface_map)).take (16 - refIdx) := by
  induction slots with
  | nil => intro c refIdx; simp [vdpauBuildRefs]
  | cons slot rest ih =>
    intro c refIdx
    obtain ⟨sv, hp, dpb, image⟩ := slot
    by_cases hfull : 16 ≤ refIdx
    · have h0 : 16 - refIdx = 0 := by omega
      simp [vdpauBuildRefs, hfull, h0]
    · by_cases hv : sv = false ∨ hp = false
      · have hres : vdpauResolveSlot c.surface_map ⟨sv, hp, dpb, image⟩ = none := by
          simp [vdpauResolveSlot, hv]
        have hstep : (vdpauBuildRefs c (⟨sv, hp, dpb, image⟩ :: rest) refIdx).1 =
            (vdpauBuildRefs c rest refIdx).1 := by
          rcases hv with hv | hv <;> simp [vdpauBuildRefs, hfull, hv]
        rw [hstep, List.filterMap_cons, hres, ih c refIdx]
      · push_neg at hv
        have hsv : sv = true := by
          cases sv
          · exact absurd rfl hv.1
          · rfl
        have hhp : hp = true := by
          cases hp
          · exact absurd rfl hv.2
          · rfl
        subst hsv hhp
        cases dpb with
        | none =>
          have hres : vdpauResolveSlot c.surface_map ⟨true, true, none, image⟩ =
              none := by
            simp [vdpauResolveSlot]
          have hstep : (vdpauBuildRefs c (⟨true, true, none, image⟩ :: rest)
              refIdx).1 = (vdpauBuildRefs c rest refIdx).1 := by
            simp [vdpauBuildRefs, hfull]
          rw [hstep, List.filterMap_cons, hres, ih c refIdx]
        | some refInfo =>
          cases image with
          | none =>
            have hres : vdpauResolveSlot c.surface_map
                ⟨true, true, some refInfo, none⟩ = none := by
              simp [vdpauResolveSlot]
            have hstep : (vdpauBuildRefs c (⟨true, true, some refInfo, none⟩ ::
                rest) refIdx).1 = (vdpauBuildRefs c rest refIdx).1 := by
              simp [vdpauBuildRefs, hfull]
            rw [hstep, List.filterMap_cons, hres, ih c refIdx]
          | some img =>
            have hval : (anv_vdpau_lookup_surface c img).2 =
                vdpauLookupValue c.surface_map img :=
              vdpauLookupGo_snd c.surface_map img c.frame_counter
            have hstrip : stripTs (anv_vdpau_lookup_surface c img).1.surface_map =
                stripTs c.surface_map :=
              vdpauLookupGo_stripTs c.surface_map img c.frame_counter
            have hfm : List.filterMap
                (vdpauResolveSlot (anv_vdpau_lookup_surface c img).1.surface_map)
                  rest =
                List.filterMap (vdpauResolveSlot c.surface_map) rest :=
              List.filterMap_congr (fun s _ => vdpauResolveSlot_congr _ _ s hstrip)
            by_cases hmiss : (anv_vdpau_lookup_surface c img).2 = INVALID_HANDLE
            · have hmv : vdpauLookupValue c.surface_map img = INVALID_HANDLE :=
                hval ▸ hmiss
              have hres : vdpauResolveSlot c.surface_map
                  ⟨true, true, some refInfo, some img⟩ = none := by
                simp [vdpauResolveSlot, hmv]
              have hstep : (vdpauBuildRefs c (⟨true, true, some refInfo, some img⟩
                  :: rest) refIdx).1 =
                  (vdpauBuildRefs (anv_vdpau_lookup_surface c img).1 rest
                    refIdx).1 := by
                simp [vdpauBuildRefs, hfull, hmiss]
              rw [hstep, ih _ refIdx, hfm, List.filterMap_cons, hres]
            · have hmv : ¬ vdpauLookupValue c.surface_map img = INVALID_HANDLE :=
                hval ▸ hmiss
              have hres : vdpauResolveSlot c.surface_map
                  ⟨true, true, some refInfo, some img⟩ = some
                  { surface := vdpauLookupValue c.surface_map img
                    frame_idx := refInfo.FrameNum
                    is_long_term := refInfo.used_for_long_term_reference
                    top_is_reference :=
                      if ¬refInfo.top_field_flag ∧ ¬refInfo.bottom_field_flag then
                        true
                      else refInfo.top_field_flag
                    bottom_is_reference :=
                      if ¬refInfo.top_field_flag ∧ ¬refInfo.bottom_field_flag then
                        true
                      else refInfo.bottom_field_flag
                    field_order_cnt0 := refInfo.PicOrderCnt0
                    field_order_cnt1 := refInfo.PicOrderCnt1 } := by
                simp [vdpauResolveSlot, hmv]
              have hstep : (vdpauBuildRefs c (⟨true, true, some refInfo, some img⟩
                  :: rest) refIdx).1 =
                  { surface := (anv_vdpau_lookup_surface c img).2
                    frame_idx := refInfo.FrameNum
                    is_long_term := refInfo.used_for_long_term_reference
                    top_is_reference :=
                      if ¬refInfo.top_field_flag ∧ ¬refInfo.bottom_field_flag then
                        true
                      else refInfo.top_field_flag
                    bottom_is_reference :=
                      if ¬refInfo.top_field_flag ∧ ¬refInfo.bottom_field_flag then
                        true
                      else refInfo.bottom_field_flag
                    field_order_cnt0 := refInfo.PicOrderCnt0
                    field_order_cnt1 := refInfo.PicOrderCnt1 } ::
                  (vdpauBuildRefs (anv_vdpau_lookup_surface c img).1 rest
                    (refIdx + 1)).1 := by
                simp [vdpauBuildRefs, hfull, hmiss]
              rw [hstep, ih _ (refIdx + 1), hfm, List.filterMap_cons, hres, hval]
              have h16 : 16 - refIdx = (16 - (refIdx + 1)) + 1 := by omega
              rw [h16, List.take_succ_cons]

lemma vaapiBuildDpb_eq (slots : List RefSlot) :
    ∀ (c : VaapiCache) (dpbIdx : Nat),
      vaapiBuildDpb c slots dpbIdx =
        (slots.filterMap (vaapiResolveSlot c)).take (16 - dpbIdx) := by
  induction slots with
  | nil => intro c dpbIdx; simp [vaapiBuildDpb]
  | cons slot rest ih =>
    intro c dpbIdx
    obtain ⟨sv, hp, dpb, image⟩ := slot
    by_cases hfull : 16 ≤ dpbIdx
    · have h0 : 16 - dpbIdx = 0 := by omega
      simp [vaapiBuildDpb, hfull, h0]
    · by_cases hv : sv = false ∨ hp = false
      · have hres : vaapiResolveSlot c ⟨sv, hp, dpb, image⟩ = none := by
          simp [vaapiResolveSlot, hv]
        have hstep : vaapiBuildDpb c (⟨sv, hp, dpb, image⟩ :: rest) dpbIdx =
            vaapiBuildDpb c rest dpbIdx := by
          rcases hv with hv | hv <;> simp [vaapiBuildDpb, hfull, hv]
        rw [hstep, List.filterMap_cons, hres, ih c dpbIdx]
      · push_neg at hv
        have hsv : sv = true := by
          cases sv
          · exact absurd rfl hv.1
          · rfl
        have hhp : hp = true := by
          cases hp
          · exact absurd rfl hv.2
          · rfl
        subst hsv hhp
        cases dpb with
        | none =>
          have hres : vaapiResolveSlot c ⟨true, true, none, image⟩ = none := by
            simp [vaapiResolveSlot]
          have hstep : vaapiBuildDpb c (⟨true, true, none, image⟩ :: rest)
              dpbIdx = vaapiBuildDpb c rest dpbIdx := by
            simp [vaapiBuildDpb, hfull]
          rw [hstep, List.filterMap_cons, hres, ih c dpbIdx]
        | some refInfo =>
          cases image with
          | none =>
            have hres : vaapiResolveSlot c ⟨true, true, some refInfo, none⟩ =
                none := by
              simp [vaapiResolveSlot]
            have hstep : vaapiBuildDpb c (⟨true, true, some refInfo, none⟩ ::
                rest) dpbIdx = vaapiBuildDpb c rest dpbIdx := by
              simp [vaapiBuildDpb, hfull]
            rw [hstep, List.filterMap_cons, hres, ih c dpbIdx]
          | some img =>
            by_cases hmiss : anv_vaapi_lookup_surface c img = INVALID_HANDLE
            · have hres : vaapiResolveSlot c ⟨true, true, some refInfo, some img⟩
                  = none := by
                simp [vaapiResolveSlot, hmiss]
              have hstep : vaapiBuildDpb c (⟨true, true, some refInfo, some img⟩
                  :: rest) dpbIdx = vaapiBuildDpb c rest dpbIdx := by
                simp [vaapiBuildDpb, hfull, hmiss]
              rw [hstep, List.filterMap_cons, hres, ih c dpbIdx]
            · obtain ⟨entry, hres⟩ : ∃ entry,
                  vaapiResolveSlot c ⟨true, true, some refInfo, some img⟩ =
                    some entry := by
                simp [vaapiResolveSlot, hmiss]
              have hstep : vaapiBuildDpb c (⟨true, true, some refInfo, some img⟩
                  :: rest) dpbIdx =
                  entry :: vaapiBuildDpb c rest (dpbIdx + 1) := by
                have := hres
                simp only [vaapiResolveSlot, if_neg (by simp : ¬(true = false ∨
                  true = false))] at this
                simp only [vaapiBuildDpb, if_neg hfull]
                simp only [if_neg hmiss] at this ⊢
                simp only [show ¬(true = false ∨ true = false) by simp,
                  or_self, Bool.not_eq_false] at this ⊢
                cases this
                rfl
              rw [hstep, List.filterMap_cons, hres, ih c (dpbIdx + 1)]
              have h16 : 16 - dpbIdx = (16 - (dpbIdx + 1)) + 1 := by omega
              rw [h16, List.take_succ_cons]

lemma vaapiBuildRefPicList_length (refs : List VAPictureH264) :
    ∀ n : Nat, (vaapiBuildRefPicList refs n).length ≤ 32 - n := by
  induction refs with
  | nil => intro n; simp [vaapiBuildRefPicList]
  | cons r rest ih =>
    intro n
    simp only [vaapiBuildRefPicList]
    by_cases hinv : r.picture_id = INVALID_HANDLE ∨
        r.flags &&& VA_PICTURE_H264_INVALID ≠ 0
    · simp [hinv]
    · rw [if_neg hinv]
      by_cases hcnt : n < 32
      · rw [if_pos hcnt]
        have := ih (n + 1)
        simp only [List.length_cons]
        omega
      · rw [if_neg hcnt]
        have := ih n
        omega

lemma padRefs16_length (l : List VdpReferenceFrameH264) (h : l.length ≤ 16) :
    (padRefs16 l).length = 16 := by
  simp [padRefs16]
  omega

lemma padDpb16_length (l : List VAPictureH264) (h : l.length ≤ 16) :
    (padDpb16 l).length = 16 := by
  simp [padDpb16]
  omega

lemma padRefList32_length (l : List VAPictureH264) :
    (padRefList32 l).length = 32 := by
  simp [padRefList32]
  omega

/-- C4: in both translators the Reference Picture List is built in
reference-slot order by resolving each slot against the surface cache: a
slot with an invalid slot index, a missing picture resource, missing DPB
slot info, an unresolvable image, or an image with no cached backend
surface is skipped (its resolver yields `none`) rather than failing the
translation, the populated list is exactly the resolvable slots in order
capped at 16 entries, the translated DPB array always has exactly 16
entries, and the flattened VA-API L0/L1 slice lists never exceed 32
entries (and are emitted as exactly-32-entry arrays). -/
theorem C4_theorem :
    (∀ (c : VdpauCache) (slots : List RefSlot),
      (vdpauBuildRefs c slots 0).1 =
        (slots.filterMap (vdpauResolveSlot c.surface_map)).take 16 ∧
      (vdpauBuildRefs c slots 0).1.length ≤ 16) ∧
    (∀ (c : VaapiCache) (slots : List RefSlot),
      vaapiBuildDpb c slots 0 =
        (slots.filterMap (vaapiResolveSlot c)).take 16 ∧
      (vaapiBuildDpb c slots 0).length ≤ 16) ∧
    (∀ (di : DecodeInfo) (h : H264PictureInfo) (p : VideoSessionParams)
        (c : VdpauCache),
      (anv_vdpau_translate_h264_picture_params di h p c).1.referenceFrames.length
        = 16) ∧
    (∀ (di : DecodeInfo) (h : H264PictureInfo) (p : VideoSessionParams)
        (c : VaapiCache) (dst : Nat),
      (anv_vaapi_translate_h264_picture_params di h p c dst).ReferenceFrames.length
        = 16) ∧
    (∀ (refs : List VAPictureH264) (n : Nat),
      (vaapiBuildRefPicList refs n).length ≤ 32 - n) ∧
    (∀ (va_pic : VAPictureParameterBufferH264) (off sz : Nat),
      (anv_vaapi_translate_h264_slice_params va_pic off sz).RefPicList0.length
          = 32 ∧
      (anv_vaapi_translate_h264_slice_params va_pic off sz).RefPicList1.length
          = 32) := by
  have hvd : ∀ (c : VdpauCache) (slots : List RefSlot),
      (vdpauBuildRefs c slots 0).1 =
        (slots.filterMap (vdpauResolveSlot c.surface_map)).take 16 :=
    fun c slots => vdpauBuildRefs_fst slots c 0
  have hvdlen : ∀ (c : VdpauCache) (slots : List RefSlot),
      (vdpauBuildRefs c slots 0).1.length ≤ 16 := by
    intro c slots
    rw [hvd c slots]
    simp
  have hva : ∀ (c : VaapiCache) (slots : List RefSlot),
      vaapiBuildDpb c slots 0 =
        (slots.filterMap (vaapiResolveSlot c)).take 16 :=
    fun c slots => vaapiBuildDpb_eq slots c 0
  have hvalen : ∀ (c : VaapiCache) (slots : List RefSlot),
      (vaapiBuildDpb c slots 0).length ≤ 16 := by
    intro c slots
    rw [hva c slots]
    simp
  refine ⟨fun c slots => ⟨hvd c slots, hvdlen c slots⟩,
    fun c slots => ⟨hva c slots, hvalen c slots⟩, ?_, ?_, ?_, ?_⟩
  · intro di h p c
    unfold anv_vdpau_translate_h264_picture_params
    cases p.h264_sps.find?
        (fun s => s.seq_parameter_set_id == h.std.seq_parameter_set_id) with
    | none =>
      cases p.h264_pps.find?
          (fun q => q.pic_parameter_set_id == h.std.pic_parameter_set_id) <;>
        simp [VdpPictureInfoH264.mk]
    | some sps =>
      cases p.h264_pps.find?
          (fun q => q.pic_parameter_set_id == h.std.pic_parameter_set_id) with
      | none => simp
      | some pps =>
        simp only
        exact padRefs16_length _ (hvdlen c di.referenceSlots)
  · intro di h p c dst
    unfold anv_vaapi_translate_h264_picture_params
    cases p.h264_sps.find?
        (fun s => s.seq_parameter_set_id == h.std.seq_parameter_set_id) with
    | none =>
      cases p.h264_pps.find?
          (fun q => q.pic_parameter_set_id == h.std.pic_parameter_set_id) <;>
        simp
    | some sps =>
      cases p.h264_pps.find?
          (fun q => q.pic_parameter_set_id == h.std.pic_parameter_set_id) with
      | none => simp
      | some pps =>
        simp only
        exact padDpb16_length _ (hvalen c di.referenceSlots)
  · intro refs n
    exact vaapiBuildRefPicList_length refs n
  · intro va_pic off sz
    exact ⟨padRefList32_length _, padRefList32_length _⟩

lemma rangeMap_getD (l : List Nat) (n : Nat) (h : l.length = n) :
    (List.range n).map (fun j => l.getD j 0) = l := by
  subst h
  apply List.ext_getElem
  · simp
  · intro i h1 h2
    simp only [List.getElem_map, List.getElem_range]
    exact List.getD_eq_getElem l 0 h2

lemma copyScaling_eq (src : List (List Nat)) (rows cols : Nat)
    (hr : src.length = rows) (hc : ∀ r ∈ src, r.length = cols) :
    copyScaling rows cols src = src := by
  subst hr
  apply List.ext_getElem
  · simp [copyScaling]
  · intro i h1 h2
    simp only [copyScaling, List.getElem_map, List.getElem_range]
    rw [List.getD_eq_getElem src [] h2]
    exact rangeMap_getD _ _ (hc _ (List.getElem_mem h2))

/-- C8: when `translate_picture` resolves its SPS and PPS, the VDPAU
backend scaling lists are copied verbatim from the PPS scaling lists when
the PPS provides them, and are the flat all-16 default lists otherwise; in
the latter case the translation still completes normally (the current
picture fields are produced, not the zeroed "missing parameter set"
result) — the absence of scaling lists is silent, not a translation
failure.  (The VA-API output shape, `VAPictureParameterBufferH264`, has no
scaling-list fields at all; the bridge never creates an IQ-matrix buffer.) -/
theorem C8_theorem (di : DecodeInfo) (h : H264PictureInfo)
    (p : VideoSessionParams) (c : VdpauCache) (sps : H264Sps) (pps : H264Pps)
    (hs : p.h264_sps.find?
      (fun s => s.seq_parameter_set_id == h.std.seq_parameter_set_id) = some sps)
    (hp : p.h264_pps.find?
      (fun q => q.pic_parameter_set_id == h.std.pic_parameter_set_id) = some pps) :
    (∀ sl, pps.pScalingLists = some sl →
      sl.scalingList4x4.length = 6 → (∀ r ∈ sl.scalingList4x4, r.length = 16) →
      sl.scalingList8x8.length = 2 → (∀ r ∈ sl.scalingList8x8, r.length = 64) →
      (anv_vdpau_translate_h264_picture_params di h p c).1.scaling_lists_4x4 =
          sl.scalingList4x4 ∧
      (anv_vdpau_translate_h264_picture_params di h p c).1.scaling_lists_8x8 =
          sl.scalingList8x8) ∧
    (pps.pScalingLists = none →
      (anv_vdpau_translate_h264_picture_params di h p c).1.scaling_lists_4x4 =
          flatScaling4x4 ∧
      (anv_vdpau_translate_h264_picture_params di h p c).1.scaling_lists_8x8 =
          flatScaling8x8) ∧
    (anv_vdpau_translate_h264_picture_params di h p c).1.slice_count =
        h.sliceCount ∧
    (anv_vdpau_translate_h264_picture_params di h p c).1.frame_num =
        h.std.frame_num := by
  simp only [anv_vdpau_translate_h264_picture_params, hs, hp]
  refine ⟨?_, ?_, by trivial, by trivial⟩
  · intro sl hsl h46 h416 h82 h864
    rw [hsl]
    exact ⟨copyScaling_eq _ 6 16 h46 h416, copyScaling_eq _ 2 64 h82 h864⟩
  · intro hnone
    rw [hnone]
    exact ⟨rfl, rfl⟩

/-- Concrete SPS fixture used by witnesses. -/
def sps0 : H264Sps :=
  { seq_parameter_set_id := 0, max_num_ref_frames := 4,
    frame_mbs_only_flag := true, mb_adaptive_frame_field_flag := false,
    log2_max_frame_num_minus4 := 0, pic_order_cnt_type := 0,
    log2_max_pic_order_cnt_lsb_minus4 := 2,
    delta_pic_order_always_zero_flag := false,
    direct_8x8_inference_flag := true, chroma_format_idc := 1,
    gaps_in_frame_num_value_allowed_flag := false,
    pic_width_in_mbs_minus1 := 119, pic_height_in_map_units_minus1 := 67,
    bit_depth_luma_minus8 := 0, bit_depth_chroma_minus8 := 0 }

/-- Concrete PPS fixture (no scaling lists) used by witnesses. -/
def pps0 : H264Pps :=
  { pic_parameter_set_id := 0, entropy_coding_mode_flag := true,
    bottom_field_pic_order_in_frame_present_flag := false,
    weighted_pred_flag := false, weighted_bipred_idc := 0,
    deblocking_filter_control_present_flag := true,
    redundant_pic_cnt_present_flag := false, transform_8x8_mode_flag := true,
    constrained_intra_pred_flag := false, chroma_qp_index_offset := 0,
    second_chroma_qp_index_offset := 0, pic_init_qp_minus26 := 0,
    num_ref_idx_l0_default_active_minus1 := 0,
    num_ref_idx_l1_default_active_minus1 := 0, pScalingLists := none }

def params0 : VideoSessionParams := { h264_sps := [sps0], h264_pps := [pps0] }

def stdPic0 : StdPictureInfo :=
  { seq_parameter_set_id := 0, pic_parameter_set_id := 0, frame_num := 9,
    field_pic_flag := false, bottom_field_flag := false, is_reference := false,
    PicOrderCnt0 := 0, PicOrderCnt1 := 0 }

def h264Pic0 : H264PictureInfo :=
  { std := stdPic0, sliceCount := 2, pSliceOffsets := [0, 100] }

def decodeInfo0 : DecodeInfo :=
  { referenceSlots := [], setupReferenceSlotValid := false }

def vdpauCache0 : VdpauCache :=
  { surface_map := [], surface_map_capacity := 4, frame_counter := 0 }

/-- Witness for C8 at a concrete input: one SPS/PPS pair with no scaling
lists; the translated picture carries the flat all-16 lists and the
picture's slice count. -/
theorem C8_witness :
    (anv_vdpau_translate_h264_picture_params decodeInfo0 h264Pic0 params0
        vdpauCache0).1.scaling_lists_4x4 = flatScaling4x4 ∧
    (anv_vdpau_translate_h264_picture_params decodeInfo0 h264Pic0 params0
        vdpauCache0).1.slice_count = 2 := by
  have h := C8_theorem decodeInfo0 h264Pic0 params0 vdpauCache0 sps0 pps0
    (by rfl) (by rfl)
  exact ⟨(h.2.1 rfl).1, h.2.2.1⟩

/-! ## Decode-frame recording (anv_vdpau_decode_frame / anv_vaapi_decode_frame)

The backend calls a decode-frame invocation performs are recorded as
events.  Backend allocations (surfaces, decoders, VA buffers) are modelled
by a fresh-handle counter; backend creation calls are assumed to succeed
(their failure paths return early and perform no further backend calls). -/

inductive VkResult
  | VK_SUCCESS
  | VK_ERROR_INITIALIZATION_FAILED
  | VK_ERROR_FORMAT_NOT_SUPPORTED
  | VK_ERROR_OUT_OF_HOST_MEMORY
  | VK_ERROR_MEMORY_MAP_FAILED
  | VK_ERROR_OUT_OF_DEVICE_MEMORY
  | VK_ERROR_UNKNOWN
  | VK_ERROR_TOO_MANY_OBJECTS
  | VK_ERROR_VIDEO_PICTURE_LAYOUT_NOT_SUPPORTED_KHR
deriving DecidableEq, Repr

inductive VdpBackendCall
  | decoderDestroy (d : Nat)
  | surfaceDestroy (s : Nat)
  | decoderCreate (w h d : Nat)
  | surfaceCreate (img s : Nat)
deriving DecidableEq, Repr

/-- The VDPAU session state touched by `anv_vdpau_decode_frame`. -/
structure VdpauSession where
  cache : VdpauCache
  decoder_created : Bool
  width : Nat
  height : Nat
  vdp_decoder : Nat
  nextHandle : Nat
deriving DecidableEq, Repr

structure VdpauDecodeInput where
  hasH264PicInfo : Bool
  h264 : H264PictureInfo
  dstImage : Option Nat
  dstWidth : Nat
  dstHeight : Nat
  decodeInfo : DecodeInfo
  params : VideoSessionParams
  srcBufferValid : Bool
  srcBufferOffset : Nat
  srcBufferRange : Nat
deriving DecidableEq, Repr

structure VdpauDecodeCmd where
  decoder : Nat
  target_surface : Nat
  pic_info : VdpPictureInfoH264
  bitstream_buffer_count : Nat
  slice_sizes : List Nat
  ref_surfaces : List Nat
deriving DecidableEq, Repr

structure VdpauDecodeResult where
  result : VkResult
  session : VdpauSession
  events : List VdpBackendCall
  queued : Option VdpauDecodeCmd
deriving DecidableEq, Repr

/-- `uint32_t` subtraction. -/
def sub32 (a b : Nat) : Nat := (a % 2 ^ 32 + 2 ^ 32 - b % 2 ^ 32) % 2 ^ 32

/-- The per-slice offset/size computation (`pSliceOffsets[s]`, last slice =
remaining buffer length). -/
def vdpauSliceSizes (offsets : List Nat) (sliceCount range : Nat) : List Nat :=
  (List.range sliceCount).map (fun s =>
    let off := offsets.getD s 0
    if s = sliceCount - 1 then sub32 range off
    else sub32 (offsets.getD (s + 1) 0) off)

/-- The lazy-decoder (re)creation step of `anv_vdpau_decode_frame`
(lines 1499-1548): on the first decode, or when the destination geometry
changed, destroy the old decoder and every cached surface, clear the
surface map, and create a decoder with the actual dimensions. -/
def vdpauEnsureDecoder (s : VdpauSession) (w h : Nat) :
    VdpauSession × List VdpBackendCall :=
  if ¬s.decoder_created ∨ s.width ≠ w ∨ s.height ≠ h then
    let destroyEvents :=
      if s.decoder_created then
        (if s.vdp_decoder ≠ 0 then [VdpBackendCall.decoderDestroy s.vdp_decoder]
         else []) ++
        s.cache.surface_map.filterMap (fun e =>
          if e.vdp_surface ≠ INVALID_HANDLE then
            some (VdpBackendCall.surfaceDestroy e.vdp_surface)
          else none)
      else []
    let cache1 :=
      if s.decoder_created then { s.cache with surface_map := [] } else s.cache
    let dec := s.nextHandle
    let s1 : VdpauSession :=
      { cache := cache1, decoder_created := true, width := w, height := h,
        vdp_decoder := dec, nextHandle := s.nextHandle + 1 }
    (s1, destroyEvents ++ [VdpBackendCall.decoderCreate w h dec])
  else (s, [])

/-- The destination/reference surface lookup-or-create step used by
`anv_vdpau_decode_frame`: look the image up (refreshing its timestamp on a
hit); on a miss create a fresh surface and insert it, which at capacity
destroys the LRU entry's surface. -/
def vdpauGetSurface (s : VdpauSession) (img : Nat) :
    VdpauSession × List VdpBackendCall × Nat :=
  let lk := anv_vdpau_lookup_surface s.cache img
  if lk.2 ≠ INVALID_HANDLE then
    ({ s with cache := lk.1 }, [], lk.2)
  else
    let surf := s.nextHandle
    let add := anv_vdpau_add_surface_mapping lk.1 img surf
    ({ s with cache := add.1, nextHandle := s.nextHandle + 1 },
     VdpBackendCall.surfaceCreate img surf ::
       (add.2.map VdpBackendCall.surfaceDestroy).toList,
     surf)

/-- The reference-import loop of `anv_vdpau_decode_frame` (lines
1580-1606): slots with a negative index, no picture resource, or no image
are skipped; others are looked up or created. -/
def vdpauDecodeRefsLoop (s : VdpauSession) (slots : List RefSlot) :
    VdpauSession × List VdpBackendCall × List Nat :=
  match slots with
  | [] => (s, [], [])
  | slot :: rest =>
    if ¬slot.slotIndexValid ∨ ¬slot.hasPictureResource then
      vdpauDecodeRefsLoop s rest
    else
      match slot.image with
      | none => vdpauDecodeRefsLoop s rest
      | some img =>
        let g := vdpauGetSurface s img
        let r := vdpauDecodeRefsLoop g.1 rest
        (r.1, g.2.1 ++ r.2.1, g.2.2 :: r.2.2)

/-- `anv_vdpau_decode_frame` (anv_video_vdpau_bridge.c:1471-1687): resolve
the H.264 picture info and destination image, lazily (re)create the
decoder, look up or create the destination and reference surfaces,
translate the picture parameters (unchecked), and — only then — reject a
zero slice count; otherwise queue a deferred decode command.  Bitstream
mapping and slice-buffer allocation are assumed to succeed. -/
def anv_vdpau_decode_frame (s : VdpauSession) (inp : VdpauDecodeInput) :
    VdpauDecodeResult :=
  if ¬inp.hasH264PicInfo then
    ⟨VkResult.VK_ERROR_FORMAT_NOT_SUPPORTED, s, [], none⟩
  else
    match inp.dstImage with
    | none => ⟨VkResult.VK_ERROR_INITIALIZATION_FAILED, s, [], none⟩
    | some dstImg =>
      let ed := vdpauEnsureDecoder s inp.dstWidth inp.dstHeight
      let gd := vdpauGetSurface ed.1 dstImg
      let rl := vdpauDecodeRefsLoop gd.1 inp.decodeInfo.referenceSlots
      let tr := anv_vdpau_translate_h264_picture_params inp.decodeInfo inp.h264
        inp.params rl.1.cache
      let s4 := { rl.1 with cache := tr.2 }
      let evs := ed.2 ++ gd.2.1 ++ rl.2.1
      if ¬inp.srcBufferValid then
        ⟨VkResult.VK_ERROR_INITIALIZATION_FAILED, s4, evs, none⟩
      else if inp.h264.sliceCount = 0 then
        ⟨VkResult.VK_ERROR_FORMAT_NOT_SUPPORTED, s4, evs, none⟩
      else
        ⟨VkResult.VK_SUCCESS, s4, evs,
         some { decoder := s4.vdp_decoder
                target_surface := gd.2.2
                pic_info := tr.1
                bitstream_buffer_count := inp.h264.sliceCount
                slice_sizes := vdpauSliceSizes inp.h264.pSliceOffsets
                  inp.h264.sliceCount inp.srcBufferRange
                ref_surfaces := rl.2.2 }⟩

inductive VaBackendCall
  | importSurface (img surf : Nat)
  | destroySurface (s : Nat)
  | createBuffer (id : Nat)
  | destroyBuffer (id : Nat)
deriving DecidableEq, Repr

structure VaapiSession where
  cache : VaapiCache
  nextHandle : Nat
deriving DecidableEq, Repr

structure VaapiDecodeInput where
  hasH264PicInfo : Bool
  h264 : H264PictureInfo
  dstImage : Option Nat
  decodeInfo : DecodeInfo
  params : VideoSessionParams
  srcBufferValid : Bool
  srcBufferOffset : Nat
  srcBufferRange : Nat
deriving DecidableEq, Repr

structure VaapiDecodeCmd where
  target_surface : Nat
  pic_param_buf : Nat
  slice_param_bufs : List Nat
  slice_data_bufs : List Nat
  slice_count : Nat
  ref_surfaces : List Nat
deriving DecidableEq, Repr

structure VaapiDecodeResult where
  result : VkResult
  session : VaapiSession
  events : List VaBackendCall
  queued : Option VaapiDecodeCmd
deriving DecidableEq, Repr

/-- Look up or DMA-buf-import the surface for an image in the VA-API
decode path. -/
def vaapiGetSurface (s : VaapiSession) (img : Nat) :
    VaapiSession × List VaBackendCall × Nat :=
  let surf := anv_vaapi_lookup_surface s.cache img
  if surf ≠ INVALID_HANDLE then (s, [], surf)
  else
    let fresh := s.nextHandle
    ({ cache := anv_vaapi_add_surface_mapping s.cache img fresh
       nextHandle := s.nextHandle + 1 },
     [VaBackendCall.importSurface img fresh], fresh)

/-- The reference-import loop of `anv_vaapi_decode_frame` (lines 665-737). -/
def vaapiDecodeRefsLoop (s : VaapiSession) (slots : List RefSlot) :
    VaapiSession × List VaBackendCall × List Nat :=
  match slots with
  | [] => (s, [], [])
  | slot :: rest =>
    if ¬slot.slotIndexValid ∨ ¬slot.hasPictureResource then
      vaapiDecodeRefsLoop s rest
    else
      match slot.image with
      | none => vaapiDecodeRefsLoop s rest
      | some img =>
        let g := vaapiGetSurface s img
        let r := vaapiDecodeRefsLoop g.1 rest
        (r.1, g.2.1 ++ r.2.1, g.2.2 :: r.2.2)

/-- `anv_vaapi_decode_frame` (anv_video_vaapi_bridge.c:535-942): resolve
picture info and destination, look up or import destination and reference
surfaces, translate the picture parameters and reject an invalid current
picture, create the picture-parameter buffer, and — only then — reject a
zero slice count (destroying the picture-parameter buffer); otherwise
create per-slice parameter and data buffers and queue a deferred decode
command.  VA buffer creation and bitstream mapping are assumed to
succeed. -/
def anv_vaapi_decode_frame (s : VaapiSession) (inp : VaapiDecodeInput) :
    VaapiDecodeResult :=
  if ¬inp.hasH264PicInfo then
    ⟨VkResult.VK_ERROR_FORMAT_NOT_SUPPORTED, s, [], none⟩
  else
    match inp.dstImage with
    | none => ⟨VkResult.VK_ERROR_INITIALIZATION_FAILED, s, [], none⟩
    | some dstImg =>
      let gd := vaapiGetSurface s dstImg
      let rl := vaapiDecodeRefsLoop gd.1 inp.decodeInfo.referenceSlots
      let va_pic := anv_vaapi_translate_h264_picture_params inp.decodeInfo
        inp.h264 inp.params rl.1.cache gd.2.2
      let evs0 := gd.2.1 ++ rl.2.1
      if va_pic.CurrPic.picture_id = INVALID_HANDLE ∨
          va_pic.CurrPic.flags &&& VA_PICTURE_H264_INVALID ≠ 0 then
        ⟨VkResult.VK_ERROR_INITIALIZATION_FAILED, rl.1, evs0, none⟩
      else
        let picBuf := rl.1.nextHandle
        let s1 : VaapiSession := { rl.1 with nextHandle := rl.1.nextHandle + 1 }
        let evs1 := evs0 ++ [VaBackendCall.createBuffer picBuf]
        if ¬inp.srcBufferValid then
          ⟨VkResult.VK_ERROR_INITIALIZATION_FAILED, s1,
           evs1 ++ [VaBackendCall.destroyBuffer picBuf], none⟩
        else if inp.h264.sliceCount = 0 then
          ⟨VkResult.VK_ERROR_FORMAT_NOT_SUPPORTED, s1,
           evs1 ++ [VaBackendCall.destroyBuffer picBuf], none⟩
        else
          let n := inp.h264.sliceCount
          let sliceParamBufs := (List.range n).map (fun i => s1.nextHandle + 2 * i)
          let sliceDataBufs :=
            (List.range n).map (fun i => s1.nextHandle + 2 * i + 1)
          let s2 : VaapiSession := { s1 with nextHandle := s1.nextHandle + 2 * n }
          let sliceEvs := (List.range n).flatMap (fun i =>
            [VaBackendCall.createBuffer (s1.nextHandle + 2 * i),
             VaBackendCall.createBuffer (s1.nextHandle + 2 * i + 1)])
          ⟨VkResult.VK_SUCCESS, s2, evs1 ++ sliceEvs,
           some { target_surface := gd.2.2
                  pic_param_buf := picBuf
                  slice_param_bufs := sliceParamBufs
                  slice_data_bufs := sliceDataBufs
                  slice_count := n
                  ref_surfaces := rl.2.2 }⟩

/-! ## C3: missing SPS/PPS -/

lemma vdpau_translate_missing (di : DecodeInfo) (h264 : H264PictureInfo)
    (p : VideoSessionParams) (c : VdpauCache)
    (hmiss : p.h264_sps.find?
        (fun s => s.seq_parameter_set_id == h264.std.seq_parameter_set_id) = none ∨
      p.h264_pps.find?
        (fun q => q.pic_parameter_set_id == h264.std.pic_parameter_set_id) = none) :
    anv_vdpau_translate_h264_picture_params di h264 p c = ({}, c) := by
  unfold anv_vdpau_translate_h264_picture_params
  rcases hmiss with hm | hm
  · rw [hm]
  · rw [hm]
    cases p.h264_sps.find?
        (fun s => s.seq_parameter_set_id == h264.std.seq_parameter_set_id) <;> rfl

lemma vaapi_translate_missing (di : DecodeInfo) (h264 : H264PictureInfo)
    (p : VideoSessionParams) (c : VaapiCache) (dst : Nat)
    (hmiss : p.h264_sps.find?
        (fun s => s.seq_parameter_set_id == h264.std.seq_parameter_set_id) = none ∨
      p.h264_pps.find?
        (fun q => q.pic_parameter_set_id == h264.std.pic_parameter_set_id) = none) :
    anv_vaapi_translate_h264_picture_params di h264 p c dst =
      { CurrPic := { zeroVaPicture with
          picture_id := dst, flags := VA_PICTURE_H264_INVALID } } := by
  unfold anv_vaapi_translate_h264_picture_params
  rcases hmiss with hm | hm
  · rw [hm]
  · rw [hm]
    cases p.h264_sps.find?
        (fun s => s.seq_parameter_set_id == h264.std.seq_parameter_set_id) <;> rfl

/-- A VDPAU session fresh out of `anv_vdpau_session_create`. -/
def freshVdpauSession (cap nextHandle : Nat) : VdpauSession :=
  { cache := { surface_map := [], surface_map_capacity := cap,
               frame_counter := 0 },
    decoder_created := false, width := 0, height := 0, vdp_decoder := 0,
    nextHandle := nextHandle }

/-- A decode input whose picture names SPS id 7, which `emptyParams`/
`params0` do not contain. -/
def c3VdpauInput : VdpauDecodeInput :=
  { hasH264PicInfo := true
    h264 := { std := { stdPic0 with seq_parameter_set_id := 7 },
              sliceCount := 1, pSliceOffsets := [0] }
    dstImage := some 1
    dstWidth := 64, dstHeight := 64
    decodeInfo := decodeInfo0
    params := params0
    srcBufferValid := true, srcBufferOffset := 0, srcBufferRange := 4096 }

/-- C3: the claim says the caller of the translation surfaces a per-decode
error status when the picture names an SPS/PPS id that is not found.  In
the VDPAU path this is false: with SPS id 7 absent from the bound
parameters, `anv_vdpau_decode_frame` returns `VK_SUCCESS` and queues a
deferred decode command whose picture info is the all-zero structure — no
error status is surfaced at record time. -/
theorem C3_counterexample :
    (anv_vdpau_decode_frame (freshVdpauSession 4 100) c3VdpauInput).result =
      VkResult.VK_SUCCESS ∧
    (anv_vdpau_decode_frame (freshVdpauSession 4 100)
        c3VdpauInput).queued.isSome = true ∧
    ((anv_vdpau_decode_frame (freshVdpauSession 4 100)
        c3VdpauInput).queued.map (fun cmd => cmd.pic_info)) =
      some {} := by
  refine ⟨rfl, rfl, rfl⟩

/-- C3 (amended): when the picture's SPS or PPS id is not found by linear
search, neither translator dereferences the missing parameter set: the
VA-API translator emits the minimally-valid "invalid current picture"
result (`CurrPic.flags = VA_PICTURE_H264_INVALID` over an otherwise zeroed
structure) and the VDPAU translator returns the all-zero picture info.
Only the VA-API caller surfaces a per-decode error status
(`VK_ERROR_INITIALIZATION_FAILED`, queuing nothing); the VDPAU caller does
not inspect the translation and queues the decode with `VK_SUCCESS`. -/
theorem C3_theorem (h264 : H264PictureInfo) (p : VideoSessionParams)
    (di : DecodeInfo)
    (hmiss : p.h264_sps.find?
        (fun s => s.seq_parameter_set_id == h264.std.seq_parameter_set_id) = none ∨
      p.h264_pps.find?
        (fun q => q.pic_parameter_set_id == h264.std.pic_parameter_set_id) = none) :
    (∀ (vc : VaapiCache) (dst : Nat),
      anv_vaapi_translate_h264_picture_params di h264 p vc dst =
        { CurrPic := { zeroVaPicture with
            picture_id := dst, flags := VA_PICTURE_H264_INVALID } }) ∧
    (∀ (s : VaapiSession) (dstImg : Nat) (srcValid : Bool) (off rng : Nat),
      (anv_vaapi_decode_frame s
          { hasH264PicInfo := true, h264 := h264, dstImage := some dstImg,
            decodeInfo := di, params := p, srcBufferValid := srcValid,
            srcBufferOffset := off, srcBufferRange := rng }).result =
        VkResult.VK_ERROR_INITIALIZATION_FAILED ∧
      (anv_vaapi_decode_frame s
          { hasH264PicInfo := true, h264 := h264, dstImage := some dstImg,
            decodeInfo := di, params := p, srcBufferValid := srcValid,
            srcBufferOffset := off, srcBufferRange := rng }).queued = none) ∧
    (∀ (c : VdpauCache),
      anv_vdpau_translate_h264_picture_params di h264 p c = ({}, c)) ∧
    (∀ (s : VdpauSession) (dstImg w hh off rng : Nat),
      h264.sliceCount ≠ 0 →
      (anv_vdpau_decode_frame s
          { hasH264PicInfo := true, h264 := h264, dstImage := some dstImg,
            dstWidth := w, dstHeight := hh, decodeInfo := di, params := p,
            srcBufferValid := true, srcBufferOffset := off,
            srcBufferRange := rng }).result = VkResult.VK_SUCCESS ∧
      ((anv_vdpau_decode_frame s
          { hasH264PicInfo := true, h264 := h264, dstImage := some dstImg,
            dstWidth := w, dstHeight := hh, decodeInfo := di, params := p,
            srcBufferValid := true, srcBufferOffset := off,
            srcBufferRange := rng }).queued.map (fun cmd => cmd.pic_info)) =
        some {}) := by
  refine ⟨fun vc dst => vaapi_translate_missing di h264 p vc dst hmiss,
    ?_, fun c => vdpau_translate_missing di h264 p c hmiss, ?_⟩
  · intro s dstImg srcValid off rng
    have htr := fun (vc : VaapiCache) (dst : Nat) =>
      vaapi_translate_missing di h264 p vc dst hmiss
    constructor <;>
      simp [anv_vaapi_decode_frame, htr, VA_PICTURE_H264_INVALID]
  · intro s dstImg w hh off rng hslice
    have htr := fun (c : VdpauCache) =>
      vdpau_translate_missing di h264 p c hmiss
    constructor <;>
      simp [anv_vdpau_decode_frame, htr, hslice]

/-- Witness for C3 at a concrete input on the VA-API side: a fresh session
and a picture naming the absent SPS id 7; the decode returns the
per-decode error status and queues nothing. -/
theorem C3_witness :
    (anv_vaapi_decode_frame
        { cache := { surface_map := [], surface_map_capacity := 4 },
          nextHandle := 100 }
        { hasH264PicInfo := true
          h264 := { std := { stdPic0 with seq_parameter_set_id := 7 },
                    sliceCount := 1, pSliceOffsets := [0] }
          dstImage := some 1, decodeInfo := decodeInfo0, params := params0
          srcBufferValid := true, srcBufferOffset := 0,
          srcBufferRange := 4096 }).result =
      VkResult.VK_ERROR_INITIALIZATION_FAILED := by
  exact (C3_theorem
    { std := { stdPic0 with seq_parameter_set_id := 7 },
      sliceCount := 1, pSliceOffsets := [0] } params0 decodeInfo0
    (Or.inl (by rfl))).2.1
    { cache := { surface_map := [], surface_map_capacity := 4 },
      nextHandle := 100 } 1 true 0 4096 |>.1

/-! ## C5: sliceCount == 0 -/

lemma vaapi_translate_found_CurrPic (di : DecodeInfo) (h264 : H264PictureInfo)
    (p : VideoSessionParams) (c : VaapiCache) (dst : Nat)
    (sps : H264Sps) (pps : H264Pps)
    (hs : p.h264_sps.find?
      (fun s => s.seq_parameter_set_id == h264.std.seq_parameter_set_id) =
        some sps)
    (hp : p.h264_pps.find?
      (fun q => q.pic_parameter_set_id == h264.std.pic_parameter_set_id) =
        some pps) :
    (anv_vaapi_translate_h264_picture_params di h264 p c dst).CurrPic =
      { picture_id := dst
        frame_idx := h264.std.frame_num
        flags := if di.setupReferenceSlotValid then
            VA_PICTURE_H264_SHORT_TERM_REFERENCE
          else 0
        TopFieldOrderCnt := h264.std.PicOrderCnt0
        BottomFieldOrderCnt := h264.std.PicOrderCnt1 } := by
  simp only [anv_vaapi_translate_h264_picture_params, hs, hp]
  rfl

/-- C5 counterexample input: a well-formed decode with
`h264_pic_info.sliceCount == 0` on a fresh VA-API session. -/
def c5VaapiInput : VaapiDecodeInput :=
  { hasH264PicInfo := true
    h264 := { std := stdPic0, sliceCount := 0, pSliceOffsets := [] }
    dstImage := some 1, decodeInfo := decodeInfo0, params := params0
    srcBufferValid := true, srcBufferOffset := 0, srcBufferRange := 4096 }

/-- C5: the claim says a decode with `sliceCount == 0` performs no backend
calls.  False: on a fresh session the VA-API path imports the destination
surface (`vaCreateSurfaces`) and creates the picture-parameter buffer
(`vaCreateBuffer`) before it checks the slice count — the call returns
"format not supported" but those backend calls have already happened (the
picture-parameter buffer is then destroyed again). -/
theorem C5_counterexample :
    (anv_vaapi_decode_frame
        { cache := { surface_map := [], surface_map_capacity := 4 },
          nextHandle := 100 } c5VaapiInput).result =
      VkResult.VK_ERROR_FORMAT_NOT_SUPPORTED ∧
    (anv_vaapi_decode_frame
        { cache := { surface_map := [], surface_map_capacity := 4 },
          nextHandle := 100 } c5VaapiInput).events =
      [VaBackendCall.importSurface 1 100, VaBackendCall.createBuffer 101,
       VaBackendCall.destroyBuffer 101] := by
  exact ⟨rfl, rfl⟩

/-- C5 (amended): a decode call with `sliceCount == 0` returns the
"format not supported" status and queues no deferred command in both
backends, and allocates no slice buffers; however, backend calls may
already have occurred earlier in the call (decoder creation, destination
and reference surface creation/import, and in the VA-API path the
picture-parameter buffer, which is destroyed again before returning). -/
theorem C5_theorem (h264 : H264PictureInfo) (di : DecodeInfo)
    (p : VideoSessionParams) (hslice : h264.sliceCount = 0)
    (sps : H264Sps) (pps : H264Pps)
    (hs : p.h264_sps.find?
      (fun s => s.seq_parameter_set_id == h264.std.seq_parameter_set_id) =
        some sps)
    (hp : p.h264_pps.find?
      (fun q => q.pic_parameter_set_id == h264.std.pic_parameter_set_id) =
        some pps) :
    (∀ (s : VaapiSession) (dstImg off rng : Nat),
      (vaapiGetSurface s dstImg).2.2 ≠ INVALID_HANDLE →
      (anv_vaapi_decode_frame s
          { hasH264PicInfo := true, h264 := h264, dstImage := some dstImg,
            decodeInfo := di, params := p, srcBufferValid := true,
            srcBufferOffset := off, srcBufferRange := rng }).result =
        VkResult.VK_ERROR_FORMAT_NOT_SUPPORTED ∧
      (anv_vaapi_decode_frame s
          { hasH264PicInfo := true, h264 := h264, dstImage := some dstImg,
            decodeInfo := di, params := p, srcBufferValid := true,
            srcBufferOffset := off, srcBufferRange := rng }).queued = none ∧
      (anv_vaapi_decode_frame s
          { hasH264PicInfo := true, h264 := h264, dstImage := some dstImg,
            decodeInfo := di, params := p, srcBufferValid := true,
            srcBufferOffset := off, srcBufferRange := rng }).events =
        (vaapiGetSurface s dstImg).2.1 ++
          (vaapiDecodeRefsLoop (vaapiGetSurface s dstImg).1
            di.referenceSlots).2.1 ++
          [VaBackendCall.createBuffer
            ((vaapiDecodeRefsLoop (vaapiGetSurface s dstImg).1
              di.referenceSlots).1.nextHandle),
           VaBackendCall.destroyBuffer
            ((vaapiDecodeRefsLoop (vaapiGetSurface s dstImg).1
              di.referenceSlots).1.nextHandle)]) ∧
    (∀ (s : VdpauSession) (dstImg w hh off rng : Nat),
      (anv_vdpau_decode_frame s
          { hasH264PicInfo := true, h264 := h264, dstImage := some dstImg,
            dstWidth := w, dstHeight := hh, decodeInfo := di, params := p,
            srcBufferValid := true, srcBufferOffset := off,
            srcBufferRange := rng }).result =
        VkResult.VK_ERROR_FORMAT_NOT_SUPPORTED ∧
      (anv_vdpau_decode_frame s
          { hasH264PicInfo := true, h264 := h264, dstImage := some dstImg,
            dstWidth := w, dstHeight := hh, decodeInfo := di, params := p,
            srcBufferValid := true, srcBufferOffset := off,
            srcBufferRange := rng }).queued = none) := by
  constructor
  · intro s dstImg off rng hdst
    have hcp := vaapi_translate_found_CurrPic di h264 p
      (vaapiDecodeRefsLoop (vaapiGetSurface s dstImg).1 di.referenceSlots).1.cache
      (vaapiGetSurface s dstImg).2.2 sps pps hs hp
    have hflags : (anv_vaapi_translate_h264_picture_params di h264 p
        (vaapiDecodeRefsLoop (vaapiGetSurface s dstImg).1 di.referenceSlots).1.cache
        (vaapiGetSurface s dstImg).2.2).CurrPic.flags &&&
          VA_PICTURE_H264_INVALID = 0 := by
      rw [hcp]
      by_cases hsetup : di.setupReferenceSlotValid <;>
        simp [hsetup, VA_PICTURE_H264_SHORT_TERM_REFERENCE,
          VA_PICTURE_H264_INVALID]
    have hpid : ¬ (anv_vaapi_translate_h264_picture_params di h264 p
        (vaapiDecodeRefsLoop (vaapiGetSurface s dstImg).1 di.referenceSlots).1.cache
        (vaapiGetSurface s dstImg).2.2).CurrPic.picture_id = INVALID_HANDLE := by
      rw [hcp]
      exact hdst
    refine ⟨?_, ?_, ?_⟩ <;>
      simp [anv_vaapi_decode_frame, hflags, hpid, hslice]
  · intro s dstImg w hh off rng
    constructor <;> simp [anv_vdpau_decode_frame, hslice]

/-- Witness for C5 on the VDPAU side: a fresh session and a zero-slice
decode; the call returns "format not supported" and queues nothing. -/
theorem C5_witness :
    (anv_vdpau_decode_frame (freshVdpauSession 4 100)
        { hasH264PicInfo := true
          h264 := { std := stdPic0, sliceCount := 0, pSliceOffsets := [] }
          dstImage := some 1, dstWidth := 64, dstHeight := 64
          decodeInfo := decodeInfo0, params := params0
          srcBufferValid := true, srcBufferOffset := 0,
          srcBufferRange := 4096 }).result =
      VkResult.VK_ERROR_FORMAT_NOT_SUPPORTED := by
  exact ((C5_theorem { std := stdPic0, sliceCount := 0, pSliceOffsets := [] }
    decodeInfo0 params0 rfl sps0 pps0 (by rfl) (by rfl)).2
    (freshVdpauSession 4 100) 1 64 64 0 4096).1

/-! ## C2: eviction of a pending command's target surface -/

/-- C2 failing input, step inputs: three recordings into one command
buffer, with three distinct destination images, on a session whose surface
cache has capacity 2. -/
def c2Input (img : Nat) : VdpauDecodeInput :=
  { hasH264PicInfo := true
    h264 := { std := stdPic0, sliceCount := 1, pSliceOffsets := [0] }
    dstImage := some img
    dstWidth := 64, dstHeight := 64
    decodeInfo := decodeInfo0
    params := params0
    srcBufferValid := true, srcBufferOffset := 0, srcBufferRange := 64 }

def c2Rec1 : VdpauDecodeResult :=
  anv_vdpau_decode_frame (freshVdpauSession 2 100) (c2Input 1)

def c2Rec2 : VdpauDecodeResult := anv_vdpau_decode_frame c2Rec1.session (c2Input 2)

def c2Rec3 : VdpauDecodeResult := anv_vdpau_decode_frame c2Rec2.session (c2Input 3)

/-- C2: recording three decodes with distinct destination images into one
command buffer on a capacity-2 cache: the third recording's LRU eviction
destroys backend surface 101 (`vdp_video_surface_destroy`), although the
deferred decode command queued by the first recording — still pending,
since nothing has been submitted — has that same surface as its
`target_surface`.  The code has no mechanism preventing eviction of
surfaces that pending commands in the same batch depend on. -/
theorem C2_theorem :
    c2Rec1.result = VkResult.VK_SUCCESS ∧
    c2Rec2.result = VkResult.VK_SUCCESS ∧
    c2Rec3.result = VkResult.VK_SUCCESS ∧
    (c2Rec1.queued.map (fun cmd => cmd.target_surface)) = some 101 ∧
    c2Rec3.events.contains (VdpBackendCall.surfaceDestroy 101) = true := by
  refine ⟨rfl, rfl, rfl, rfl, rfl⟩

/-! ## Deferred execution, VDPAU (anv_vdpau_execute_deferred_decodes)

The backend render outcome per queued command is an oracle
`renderOk : Nat → Bool` indexed by queue position; the result copy is
modelled as the copy call happening (its internal DMA-buf/CPU fallback is
modelled separately) against the session surface map as of submission. -/

/-- `skip_count` (lines 1727-1738). -/
def vdpauSkipCount (maxFrames n : Nat) : Nat :=
  if maxFrames = 0 ∨ n ≤ maxFrames then 0 else n - maxFrames

/-- `frames_to_process` (lines 1727-1738). -/
def vdpauFramesToProcess (maxFrames n : Nat) : Nat :=
  if maxFrames = 0 ∨ n ≤ maxFrames then n else maxFrames

/-- Phase 1 (lines 1760-1788): walk the queue in order; indices below
`skip` are dropped, the loop breaks at `stop = skip + frames_to_process`,
each command in the window gets a `vdp_decoder_render` call, and a failed
render breaks out of the loop (after the call was made). -/
def vdpauRenderLoop (renderOk : Nat → Bool) (skip stop : Nat) :
    List VdpauDecodeCmd → Nat → List Nat × Bool
  | [], _ => ([], true)
  | _ :: rest, i =>
    if i < skip then vdpauRenderLoop renderOk skip stop rest (i + 1)
    else if stop ≤ i then ([], true)
    else if renderOk i then
      let r := vdpauRenderLoop renderOk skip stop rest (i + 1)
      (i :: r.1, r.2)
    else ([i], false)

/-- The target-image search of phase 2 (lines 1833-1839): first surface-map
entry whose `vdp_surface` equals the command's target surface. -/
def vdpauFindTargetImage (m : List SurfaceMapEntry) (surf : Nat) : Option Nat :=
  match m with
  | [] => none
  | e :: rest =>
    if e.vdp_surface = surf then some e.image else vdpauFindTargetImage rest surf

/-- Phase 2 (lines 1817-1854): same window as phase 1; commands whose
target surface has no image in the surface map are not copied. -/
def vdpauCopyLoop (m : List SurfaceMapEntry) (skip stop : Nat) :
    List VdpauDecodeCmd → Nat → List Nat
  | [], _ => []
  | cmd :: rest, i =>
    if i < skip then vdpauCopyLoop m skip stop rest (i + 1)
    else if stop ≤ i then []
    else
      match vdpauFindTargetImage m cmd.target_surface with
      | some _ => i :: vdpauCopyLoop m skip stop rest (i + 1)
      | none => vdpauCopyLoop m skip stop rest (i + 1)

/-- Phase 3 (lines 1856-1875): release every queued command's resources,
including skipped ones. -/
def vdpauReleaseLoop : List VdpauDecodeCmd → Nat → List Nat
  | [], _ => []
  | _ :: rest, i => i :: vdpauReleaseLoop rest (i + 1)

structure VdpauExecOutcome where
  rendered : List Nat
  copied : List Nat
  released : List Nat
  result : VkResult
deriving DecidableEq, Repr

/-- `anv_vdpau_execute_deferred_decodes`
(anv_video_vdpau_bridge.c:1702-1903), recording which queue indices
receive a render call, a result copy, and a resource release.  An empty
queue returns early (before the cleanup phase); a render failure skips
phase 2 (`goto cleanup`) but still releases every command and clears the
queue. -/
def anv_vdpau_execute_deferred_decodes (maxFrames : Nat)
    (m : List SurfaceMapEntry) (renderOk : Nat → Bool)
    (cmds : List VdpauDecodeCmd) : VdpauExecOutcome :=
  let n := cmds.length
  if n = 0 then ⟨[], [], [], VkResult.VK_SUCCESS⟩
  else
    let skip := vdpauSkipCount maxFrames n
    let frames := vdpauFramesToProcess maxFrames n
    let r1 := vdpauRenderLoop renderOk skip (skip + frames) cmds 0
    let copied := if r1.2 then vdpauCopyLoop m skip (skip + frames) cmds 0 else []
    { rendered := r1.1
      copied := copied
      released := vdpauReleaseLoop cmds 0
      result := if r1.2 then VkResult.VK_SUCCESS else VkResult.VK_ERROR_UNKNOWN }

lemma range'_filter_of_ge (pred : Nat → Bool) (stop : Nat)
    (hstop : ∀ j, stop ≤ j → pred j = false) :
    ∀ (n i : Nat), stop ≤ i → (List.range' i n).filter pred = [] := by
  intro n
  induction n with
  | zero => intro i _; rfl
  | succ n ih =>
    intro i hi
    rw [List.range'_succ, List.filter_cons]
    rw [hstop i hi]
    simp only [Bool.false_eq_true, if_false]
    exact ih (i + 1) (by omega)

lemma vdpauRenderLoop_all_ok (renderOk : Nat → Bool) (skip stop : Nat)
    (hok : ∀ j, skip ≤ j → j < stop → renderOk j = true) :
    ∀ (l : List VdpauDecodeCmd) (i : Nat),
      vdpauRenderLoop renderOk skip stop l i =
        ((List.range' i l.length).filter
          (fun j => decide (skip ≤ j) && decide (j < stop)), true) := by
  intro l
  induction l with
  | nil => intro i; rfl
  | cons cmd rest ih =>
    intro i
    simp only [vdpauRenderLoop, List.length_cons, List.range'_succ,
      List.filter_cons]
    by_cases h1 : i < skip
    · rw [if_pos h1, ih (i + 1)]
      have : (decide (skip ≤ i) && decide (i < stop)) = false := by
        simp
        omega
      rw [this]
      simp
    · rw [if_neg h1]
      by_cases h2 : stop ≤ i
      · rw [if_pos h2]
        have hpred : ∀ j, stop ≤ j →
            (fun j => decide (skip ≤ j) && decide (j < stop)) j = false := by
          intro j hj
          simp
          omega
        have hpi : (decide (skip ≤ i) && decide (i < stop)) = false := by
          simp
          omega
        rw [hpi]
        simp only [Bool.false_eq_true, if_false]
        rw [range'_filter_of_ge _ stop hpred rest.length (i + 1) (by omega)]
      · rw [if_neg h2]
        rw [if_pos (hok i (by omega) (by omega))]
        rw [ih (i + 1)]
        have : (decide (skip ≤ i) && decide (i < stop)) = true := by
          simp
          omega
        rw [this]
        simp

lemma vdpauCopyLoop_all_found (m : List SurfaceMapEntry) (skip stop : Nat) :
    ∀ (l : List VdpauDecodeCmd) (i : Nat),
      (∀ cmd ∈ l, (vdpauFindTargetImage m cmd.target_surface).isSome) →
      vdpauCopyLoop m skip stop l i =
        (List.range' i l.length).filter
          (fun j => decide (skip ≤ j) && decide (j < stop)) := by
  intro l
  induction l with
  | nil => intro i _; rfl
  | cons cmd rest ih =>
    intro i hfound
    have hrest : ∀ c ∈ rest, (vdpauFindTargetImage m c.target_surface).isSome :=
      fun c hc => hfound c (List.mem_cons_of_mem cmd hc)
    obtain ⟨img, himg⟩ := Option.isSome_iff_exists.mp
      (hfound cmd (List.mem_cons_self cmd rest))
    simp only [vdpauCopyLoop, List.length_cons, List.range'_succ,
      List.filter_cons]
    by_cases h1 : i < skip
    · rw [if_pos h1, ih (i + 1) hrest]
      have : (decide (skip ≤ i) && decide (i < stop)) = false := by
        simp
        omega
      rw [this]
      simp
    · rw [if_neg h1]
      by_cases h2 : stop ≤ i
      · rw [if_pos h2]
        have hpred : ∀ j, stop ≤ j →
            (fun j => decide (skip ≤ j) && decide (j < stop)) j = false := by
          intro j hj
          simp
          omega
        have hpi : (decide (skip ≤ i) && decide (i < stop)) = false := by
          simp
          omega
        rw [hpi]
        simp only [Bool.false_eq_true, if_false]
        rw [range'_filter_of_ge _ stop hpred rest.length (i + 1) (by omega)]
      · rw [if_neg h2, himg, ih (i + 1) hrest]
        have : (decide (skip ≤ i) && decide (i < stop)) = true := by
          simp
          omega
        rw [this]
        simp

lemma vdpauReleaseLoop_eq (l : List VdpauDecodeCmd) :
    ∀ i : Nat, vdpauReleaseLoop l i = List.range' i l.length := by
  induction l with
  | nil => intro i; rfl
  | cons cmd rest ih =>
    intro i
    simp only [vdpauReleaseLoop, List.length_cons, List.range'_succ, ih (i + 1)]

lemma range_filter_ge (skip : Nat) :
    ∀ n : Nat, (List.range n).filter (fun j => decide (skip ≤ j)) =
      (List.range n).drop skip := by
  intro n
  induction n with
  | zero => simp
  | succ n ih =>
    rw [List.range_succ, List.filter_append, ih]
    by_cases h : skip ≤ n
    · rw [List.drop_append_of_le_length (by simpa using h)]
      simp [h]
    · have hn : (List.filter (fun j => decide (skip ≤ j)) [n]) = [] := by
        simp
        omega
      rw [hn, List.append_nil]
      have h1 : (List.range n).drop skip = [] :=
        List.drop_eq_nil_iff.mpr (by simp; omega)
      have h2 : ((List.range n) ++ [n]).drop skip = [] :=
        List.drop_eq_nil_iff.mpr (by simp; omega)
      rw [h1, h2]

lemma range_filter_window (skip n : Nat) :
    (List.range n).filter (fun j => decide (skip ≤ j) && decide (j < skip +
      (n - skip))) = (List.range n).drop skip := by
  rw [← range_filter_ge skip n]
  apply List.filter_congr
  intro j hj
  have := List.mem_range.mp hj
  simp
  omega

/-! ## Deferred execution, VA-API (anv_vaapi_execute_deferred_decodes) -/

/-- The cleanup_cmd block of `anv_vaapi_execute_deferred_decodes`
(anv_video_vaapi_bridge.c:1523-1531): for each slice in order, destroy the
slice data buffer then the slice parameter buffer, and finally destroy the
picture parameter buffer. -/
def vaapiCmdDestroyedBuffers (cmd : VaapiDecodeCmd) : List Nat :=
  (List.range cmd.slice_count).flatMap (fun s =>
    [cmd.slice_data_bufs.getD s 0, cmd.slice_param_bufs.getD s 0]) ++
  [cmd.pic_param_buf]

structure VaapiExecOutcome where
  destroyed : List Nat
  cleaned : List Nat
  queue_after : List VaapiDecodeCmd
  result : VkResult
deriving DecidableEq, Repr

/-- The command loop of `anv_vaapi_execute_deferred_decodes`
(anv_video_vaapi_bridge.c:1348-1558).  `vaOk i` abstracts whether command
i's VA calls (vaBeginPicture/vaRenderPicture/vaEndPicture) all succeed.
Each iteration runs the command, then falls into cleanup_cmd for that
command; if the result is not VK_SUCCESS the loop breaks (line 1556), so
the remaining commands are never visited and never cleaned up. -/
def vaapiExecLoop (vaOk : Nat → Bool) :
    List VaapiDecodeCmd → Nat → List Nat × List Nat × VkResult
  | [], _ => ([], [], VkResult.VK_SUCCESS)
  | cmd :: rest, i =>
    if vaOk i then
      let r := vaapiExecLoop vaOk rest (i + 1)
      (vaapiCmdDestroyedBuffers cmd ++ r.1, i :: r.2.1, r.2.2)
    else
      (vaapiCmdDestroyedBuffers cmd, [i], VkResult.VK_ERROR_UNKNOWN)

/-- `anv_vaapi_execute_deferred_decodes` (anv_video_vaapi_bridge.c:
1334-1568): run the command loop, then clear the deferred queue
unconditionally (util_dynarray_clear, line 1561) regardless of whether the
loop broke early. -/
def anv_vaapi_execute_deferred_decodes (vaOk : Nat → Bool)
    (cmds : List VaapiDecodeCmd) : VaapiExecOutcome :=
  let r := vaapiExecLoop vaOk cmds 0
  { destroyed := r.1
    cleaned := r.2.1
    queue_after := []
    result := r.2.2 }

def c6Cmd0 : VaapiDecodeCmd :=
  { target_surface := 100, pic_param_buf := 10, slice_param_bufs := [11],
    slice_data_bufs := [12], slice_count := 1, ref_surfaces := [] }

def c6Cmd1 : VaapiDecodeCmd :=
  { target_surface := 101, pic_param_buf := 20, slice_param_bufs := [21],
    slice_data_bufs := [22], slice_count := 1, ref_surfaces := [] }

/-- C6: with two queued VA-API decode commands where the first command's
VA calls fail, `anv_vaapi_execute_deferred_decodes` destroys only the
first command's buffers (slice data 12, slice params 11, picture params
10), breaks out of the loop before visiting the second command, and then
clears the deferred queue anyway — so the second command's VA buffers
(20, 21, 22) are never destroyed and can never be destroyed later: they
leak, contradicting the specified complete cleanup on failure paths. -/
theorem C6_theorem :
    (anv_vaapi_execute_deferred_decodes (fun i => i ≠ 0)
        [c6Cmd0, c6Cmd1]).destroyed = [12, 11, 10] ∧
    (anv_vaapi_execute_deferred_decodes (fun i => i ≠ 0)
        [c6Cmd0, c6Cmd1]).cleaned = [0] ∧
    (anv_vaapi_execute_deferred_decodes (fun i => i ≠ 0)
        [c6Cmd0, c6Cmd1]).queue_after = [] ∧
    (anv_vaapi_execute_deferred_decodes (fun i => i ≠ 0)
        [c6Cmd0, c6Cmd1]).result = VkResult.VK_ERROR_UNKNOWN ∧
    c6Cmd1.pic_param_buf ∉
      (anv_vaapi_execute_deferred_decodes (fun i => i ≠ 0)
        [c6Cmd0, c6Cmd1]).destroyed ∧
    (∀ b ∈ vaapiCmdDestroyedBuffers c6Cmd1,
      b ∉ (anv_vaapi_execute_deferred_decodes (fun i => i ≠ 0)
        [c6Cmd0, c6Cmd1]).destroyed) := by
  decide

/-! ## Aggressive eviction and the DMA-buf copy path -/

/-- The keep_count clamp at the top of `anv_vdpau_evict_old_surfaces`
(anv_video_vdpau_bridge.c:626-628): keep at least 3 surfaces. -/
def evictEffectiveKeep (keep_count : Nat) : Nat :=
  if keep_count < 3 then 3 else keep_count

def insertDesc (x : Nat) : List Nat → List Nat
  | [] => [x]
  | y :: ys => if y ≤ x then x :: y :: ys else y :: insertDesc x ys

/-- Descending sort of the last_used_frame values (the qsort with
compare_uint64_desc at anv_video_vdpau_bridge.c:662). -/
def sortDesc : List Nat → List Nat
  | [] => []
  | x :: xs => insertDesc x (sortDesc xs)

/-- `anv_vdpau_evict_old_surfaces` (anv_video_vdpau_bridge.c:619-712):
clamp keep_count to at least 3; if the cache holds at most that many
entries do nothing; otherwise sort the timestamps descending, take the
keep_count-th most recent as the eviction threshold, destroy every valid
surface whose timestamp is strictly below it and remove those entries.
Returns the updated cache and the destroyed surface handles. -/
def anv_vdpau_evict_old_surfaces (c : VdpauCache) (keep_count : Nat) :
    VdpauCache × List Nat :=
  if c.surface_map.length = 0 then (c, [])
  else
    let keep := evictEffectiveKeep keep_count
    if c.surface_map.length ≤ keep then (c, [])
    else
      let sorted := sortDesc (c.surface_map.map (fun e => e.last_used_frame))
      let threshold :=
        if keep < c.surface_map.length then sorted.getD (keep - 1) 0 else 0
      let destroyed := (c.surface_map.filter
          (fun e => decide (e.last_used_frame < threshold) &&
            decide (e.vdp_surface ≠ INVALID_HANDLE))).map
        (fun e => e.vdp_surface)
      ({ c with surface_map :=
          c.surface_map.filter (fun e => decide (threshold ≤ e.last_used_frame)) },
       destroyed)

lemma evictEffectiveKeep_idem (k : Nat) :
    evictEffectiveKeep (evictEffectiveKeep k) = evictEffectiveKeep k := by
  unfold evictEffectiveKeep
  split_ifs <;> omega

inductive IslTiling
  | linear
  | y0
  | x
deriving DecidableEq, Repr

/-- NV12 fourcc, 0x3231564E (anv_video_vdpau_bridge.c:830). -/
def NV12_FOURCC : Nat := 842094158

/-- I915_FORMAT_MOD_Y_TILED = fourcc_mod_code(INTEL, 2). -/
def I915_FORMAT_MOD_Y_TILED : Nat := 72057594037927938

def DRM_FORMAT_MOD_LINEAR : Nat := 0

/-- DRM_FORMAT_MOD_INVALID = fourcc_mod_code(NONE, DRM_FORMAT_RESERVED). -/
def DRM_FORMAT_MOD_INVALID : Nat := 72057594037927935

/-- The environment of one `anv_vdpau_copy_surface_to_image_dmabuf` call:
which steps succeed, the exported surface description, the destination
image, and the result the CPU fallback `anv_vdpau_copy_surface_to_image`
would return. -/
structure DmabufCopyInput where
  export_fn_present : Bool
  export_status_ok : Bool
  export_fd : Int
  export_width : Nat
  export_height : Nat
  export_fourcc : Nat
  modifier : Nat
  image_width : Nat
  image_height : Nat
  bo_import_result : VkResult
  bo_import_valid : Bool
  dst_bo_valid : Bool
  dst_tiling : IslTiling
  pitches_match : Bool
  map_ok : Bool
  malloc_ok : Bool
  cache_capacity : Nat
  cpuResult : VkResult
deriving DecidableEq, Repr

structure DmabufCopyOutcome where
  result : VkResult
  fd_closes : Nat
  evict_keep : Option Nat
  used_cpu : Bool
deriving DecidableEq, Repr

/-- The tail of the DMA-buf copy after the source tiling has been
determined from the modifier (anv_video_vdpau_bridge.c:939-1232): map
both BOs (fall back on failure), then dispatch on the tiling
combination — same non-linear tiling uses memcpy or, on pitch mismatch, a
malloc-backed conversion (falling back if malloc fails); two different
tiled layouts fall back; every other combination copies and succeeds. -/
def vdpauDmabufCopyBody (inp : DmabufCopyInput) (src_tiling : IslTiling) :
    DmabufCopyOutcome :=
  if ¬inp.map_ok then
    { result := inp.cpuResult, fd_closes := 1, evict_keep := none,
      used_cpu := true }
  else if src_tiling = inp.dst_tiling ∧ src_tiling ≠ IslTiling.linear then
    if inp.pitches_match then
      { result := VkResult.VK_SUCCESS, fd_closes := 1, evict_keep := none,
        used_cpu := false }
    else if ¬inp.malloc_ok then
      { result := inp.cpuResult, fd_closes := 1, evict_keep := none,
        used_cpu := true }
    else
      { result := VkResult.VK_SUCCESS, fd_closes := 1, evict_keep := none,
        used_cpu := false }
  else if src_tiling ≠ IslTiling.linear ∧ inp.dst_tiling ≠ IslTiling.linear then
    { result := inp.cpuResult, fd_closes := 1, evict_keep := none,
      used_cpu := true }
  else
    { result := VkResult.VK_SUCCESS, fd_closes := 1, evict_keep := none,
      used_cpu := false }

/-- `anv_vdpau_copy_surface_to_image_dmabuf`
(anv_video_vdpau_bridge.c:784-1233).  The outcome records the returned
result, how many times the exported fd is closed, the keep_count passed
to `anv_vdpau_evict_old_surfaces` if eviction is invoked, and whether the
CPU fallback path was taken.  Export-function absence, export failure,
dimension or fourcc mismatch, import failure, missing destination BO,
unknown modifier, mapping failure and malloc failure all fall back to the
CPU copy; the fd is closed exactly once wherever a valid fd exists;
eviction happens only on VK_ERROR_OUT_OF_DEVICE_MEMORY from the import,
with keep_count = capacity - 2 when the capacity exceeds 2, else 3. -/
def anv_vdpau_copy_surface_to_image_dmabuf (inp : DmabufCopyInput) :
    DmabufCopyOutcome :=
  if ¬inp.export_fn_present then
    { result := inp.cpuResult, fd_closes := 0, evict_keep := none,
      used_cpu := true }
  else if ¬inp.export_status_ok ∨ inp.export_fd < 0 then
    { result := inp.cpuResult,
      fd_closes := if 0 ≤ inp.export_fd then 1 else 0,
      evict_keep := none, used_cpu := true }
  else if inp.export_width ≠ inp.image_width ∨
      inp.export_height ≠ inp.image_height then
    { result := inp.cpuResult, fd_closes := 1, evict_keep := none,
      used_cpu := true }
  else if inp.export_fourcc ≠ NV12_FOURCC then
    { result := inp.cpuResult, fd_closes := 1, evict_keep := none,
      used_cpu := true }
  else if inp.bo_import_result ≠ VkResult.VK_SUCCESS ∨ ¬inp.bo_import_valid then
    { result := inp.cpuResult, fd_closes := 1,
      evict_keep :=
        if inp.bo_import_result = VkResult.VK_ERROR_OUT_OF_DEVICE_MEMORY then
          some (if 2 < inp.cache_capacity then inp.cache_capacity - 2 else 3)
        else none,
      used_cpu := true }
  else if ¬inp.dst_bo_valid then
    { result := inp.cpuResult, fd_closes := 1, evict_keep := none,
      used_cpu := true }
  else if inp.modifier = I915_FORMAT_MOD_Y_TILED ∨
      inp.modifier = DRM_FORMAT_MOD_LINEAR then
    vdpauDmabufCopyBody inp
      (if inp.modifier = I915_FORMAT_MOD_Y_TILED then IslTiling.y0
       else IslTiling.linear)
  else if inp.modifier ≠ DRM_FORMAT_MOD_INVALID then
    { result := inp.cpuResult, fd_closes := 1, evict_keep := none,
      used_cpu := true }
  else
    vdpauDmabufCopyBody inp IslTiling.linear

lemma vdpauDmabufCopyBody_conj (inp : DmabufCopyInput) (st : IslTiling) :
    ((vdpauDmabufCopyBody inp st).used_cpu = true →
      (vdpauDmabufCopyBody inp st).result = inp.cpuResult) ∧
    ((vdpauDmabufCopyBody inp st).used_cpu = false →
      (vdpauDmabufCopyBody inp st).result = VkResult.VK_SUCCESS) ∧
    (inp.cpuResult = VkResult.VK_SUCCESS →
      (vdpauDmabufCopyBody inp st).result = VkResult.VK_SUCCESS) ∧
    (vdpauDmabufCopyBody inp st).fd_closes = 1 ∧
    (vdpauDmabufCopyBody inp st).evict_keep = none := by
  unfold vdpauDmabufCopyBody
  split_ifs <;> simp_all

/-- C7: for every DMA-buf copy invocation, whenever the CPU fallback is
taken the overall result is the CPU copy's result (so the copy still
succeeds whenever the CPU path does), and a non-fallback run returns
VK_SUCCESS; the exported file descriptor is closed exactly once on every
path on which a valid fd was produced; aggressive eviction is invoked
exactly when the BO import fails with out-of-device-memory, with
keep_count = capacity - 2 (or 3 for tiny capacities), whose effective
value after the clamp inside `anv_vdpau_evict_old_surfaces` is at least
3 — and that clamp makes the eviction insensitive to pre-clamped
arguments. -/
theorem C7_theorem (inp : DmabufCopyInput) :
    ((anv_vdpau_copy_surface_to_image_dmabuf inp).used_cpu = true →
      (anv_vdpau_copy_surface_to_image_dmabuf inp).result = inp.cpuResult) ∧
    ((anv_vdpau_copy_surface_to_image_dmabuf inp).used_cpu = false →
      (anv_vdpau_copy_surface_to_image_dmabuf inp).result =
        VkResult.VK_SUCCESS) ∧
    (inp.cpuResult = VkResult.VK_SUCCESS →
      (anv_vdpau_copy_surface_to_image_dmabuf inp).result =
        VkResult.VK_SUCCESS) ∧
    ((anv_vdpau_copy_surface_to_image_dmabuf inp).fd_closes =
      if inp.export_fn_present = true ∧ 0 ≤ inp.export_fd then 1 else 0) ∧
    (∀ k, (anv_vdpau_copy_surface_to_image_dmabuf inp).evict_keep = some k →
      inp.bo_import_result = VkResult.VK_ERROR_OUT_OF_DEVICE_MEMORY ∧
      k = (if 2 < inp.cache_capacity then inp.cache_capacity - 2 else 3) ∧
      3 ≤ evictEffectiveKeep k) ∧
    (inp.bo_import_result ≠ VkResult.VK_ERROR_OUT_OF_DEVICE_MEMORY →
      (anv_vdpau_copy_surface_to_image_dmabuf inp).evict_keep = none) ∧
    (∀ (c : VdpauCache) (kc : Nat),
      anv_vdpau_evict_old_surfaces c kc =
        anv_vdpau_evict_old_surfaces c (evictEffectiveKeep kc)) := by
  have hidem : ∀ (c : VdpauCache) (kc : Nat),
      anv_vdpau_evict_old_surfaces c kc =
        anv_vdpau_evict_old_surfaces c (evictEffectiveKeep kc) := by
    intro c kc
    unfold anv_vdpau_evict_old_surfaces
    rw [evictEffectiveKeep_idem]
  by_cases h1 : inp.export_fn_present = true
  case neg =>
    have ho : anv_vdpau_copy_surface_to_image_dmabuf inp =
        { result := inp.cpuResult, fd_closes := 0, evict_keep := none,
          used_cpu := true } := by
      unfold anv_vdpau_copy_surface_to_image_dmabuf
      rw [if_pos h1]
    rw [ho]
    exact ⟨fun _ => rfl, by simp, fun h => h,
      by rw [if_neg (fun hc => h1 hc.1)], by simp, fun _ => rfl, hidem⟩
  case pos =>
  by_cases h2 : ¬inp.export_status_ok ∨ inp.export_fd < 0
  case pos =>
    have ho : anv_vdpau_copy_surface_to_image_dmabuf inp =
        { result := inp.cpuResult,
          fd_closes := if 0 ≤ inp.export_fd then 1 else 0,
          evict_keep := none, used_cpu := true } := by
      unfold anv_vdpau_copy_surface_to_image_dmabuf
      rw [if_neg (not_not_intro h1), if_pos h2]
    rw [ho]
    exact ⟨fun _ => rfl, by simp, fun h => h, by simp [h1], by simp,
      fun _ => rfl, hidem⟩
  case neg =>
  have hfd : 0 ≤ inp.export_fd := by
    rcases not_or.mp h2 with ⟨-, hb⟩
    omega
  by_cases h3 : inp.export_width ≠ inp.image_width ∨
      inp.export_height ≠ inp.image_height
  case pos =>
    have ho : anv_vdpau_copy_surface_to_image_dmabuf inp =
        { result := inp.cpuResult, fd_closes := 1, evict_keep := none,
          used_cpu := true } := by
      unfold anv_vdpau_copy_surface_to_image_dmabuf
      rw [if_neg (not_not_intro h1), if_neg h2, if_pos h3]
    rw [ho]
    exact ⟨fun _ => rfl, by simp, fun h => h, by rw [if_pos ⟨h1, hfd⟩],
      by simp, fun _ => rfl, hidem⟩
  case neg =>
  by_cases h4 : inp.export_fourcc ≠ NV12_FOURCC
  case pos =>
    have ho : anv_vdpau_copy_surface_to_image_dmabuf inp =
        { result := inp.cpuResult, fd_closes := 1, evict_keep := none,
          used_cpu := true } := by
      unfold anv_vdpau_copy_surface_to_image_dmabuf
      rw [if_neg (not_not_intro h1), if_neg h2, if_neg h3, if_pos h4]
    rw [ho]
    exact ⟨fun _ => rfl, by simp, fun h => h, by rw [if_pos ⟨h1, hfd⟩],
      by simp, fun _ => rfl, hidem⟩
  case neg =>
  by_cases h5 : inp.bo_import_result ≠ VkResult.VK_SUCCESS ∨
      ¬inp.bo_import_valid
  case pos =>
    by_cases hoom : inp.bo_import_result =
        VkResult.VK_ERROR_OUT_OF_DEVICE_MEMORY
    case pos =>
      have ho : anv_vdpau_copy_surface_to_image_dmabuf inp =
          { result := inp.cpuResult, fd_closes := 1,
            evict_keep :=
              some (if 2 < inp.cache_capacity then inp.cache_capacity - 2
                else 3),
            used_cpu := true } := by
        unfold anv_vdpau_copy_surface_to_image_dmabuf
        rw [if_neg (not_not_intro h1), if_neg h2, if_neg h3, if_neg h4,
          if_pos h5, if_pos hoom]
      rw [ho]
      refine ⟨fun _ => rfl, by simp, fun h => h,
        by rw [if_pos (show inp.export_fn_present = true ∧
          0 ≤ inp.export_fd from ⟨h1, hfd⟩)],
        ?_, fun hno => absurd hoom hno, hidem⟩
      intro k hk
      simp only [Option.some.injEq] at hk
      refine ⟨hoom, hk.symm, ?_⟩
      rw [← hk]
      unfold evictEffectiveKeep
      split_ifs <;> omega
    case neg =>
      have ho : anv_vdpau_copy_surface_to_image_dmabuf inp =
          { result := inp.cpuResult, fd_closes := 1, evict_keep := none,
            used_cpu := true } := by
        unfold anv_vdpau_copy_surface_to_image_dmabuf
        rw [if_neg (not_not_intro h1), if_neg h2, if_neg h3, if_neg h4,
          if_pos h5, if_neg hoom]
      rw [ho]
      exact ⟨fun _ => rfl, by simp, fun h => h, by rw [if_pos ⟨h1, hfd⟩],
        by simp, fun _ => rfl, hidem⟩
  case neg =>
  by_cases h6 : inp.dst_bo_valid = true
  case neg =>
    have ho : anv_vdpau_copy_surface_to_image_dmabuf inp =
        { result := inp.cpuResult, fd_closes := 1, evict_keep := none,
          used_cpu := true } := by
      unfold anv_vdpau_copy_surface_to_image_dmabuf
      rw [if_neg (not_not_intro h1), if_neg h2, if_neg h3, if_neg h4,
        if_neg h5, if_pos h6]
    rw [ho]
    exact ⟨fun _ => rfl, by simp, fun h => h, by rw [if_pos ⟨h1, hfd⟩],
      by simp, fun _ => rfl, hidem⟩
  case pos =>
  by_cases h7 : inp.modifier = I915_FORMAT_MOD_Y_TILED ∨
      inp.modifier = DRM_FORMAT_MOD_LINEAR
  case pos =>
    have ho : anv_vdpau_copy_surface_to_image_dmabuf inp =
        vdpauDmabufCopyBody inp
          (if inp.modifier = I915_FORMAT_MOD_Y_TILED then IslTiling.y0
           else IslTiling.linear) := by
      unfold anv_vdpau_copy_surface_to_image_dmabuf
      rw [if_neg (not_not_intro h1), if_neg h2, if_neg h3, if_neg h4,
        if_neg h5, if_neg (not_not_intro h6), if_pos h7]
    rw [ho]
    have B := vdpauDmabufCopyBody_conj inp
      (if inp.modifier = I915_FORMAT_MOD_Y_TILED then IslTiling.y0
       else IslTiling.linear)
    refine ⟨B.1, B.2.1, B.2.2.1, by rw [B.2.2.2.1, if_pos ⟨h1, hfd⟩], ?_,
      fun _ => B.2.2.2.2, hidem⟩
    intro k hk
    rw [B.2.2.2.2] at hk
    exact Option.noConfusion hk
  case neg =>
  by_cases h8 : inp.modifier ≠ DRM_FORMAT_MOD_INVALID
  case pos =>
    have ho : anv_vdpau_copy_surface_to_image_dmabuf inp =
        { result := inp.cpuResult, fd_closes := 1, evict_keep := none,
          used_cpu := true } := by
      unfold anv_vdpau_copy_surface_to_image_dmabuf
      rw [if_neg (not_not_intro h1), if_neg h2, if_neg h3, if_neg h4,
        if_neg h5, if_neg (not_not_intro h6), if_neg h7, if_pos h8]
    rw [ho]
    exact ⟨fun _ => rfl, by simp, fun h => h, by rw [if_pos ⟨h1, hfd⟩],
      by simp, fun _ => rfl, hidem⟩
  case neg =>
    have ho : anv_vdpau_copy_surface_to_image_dmabuf inp =
        vdpauDmabufCopyBody inp IslTiling.linear := by
      unfold anv_vdpau_copy_surface_to_image_dmabuf
      rw [if_neg (not_not_intro h1), if_neg h2, if_neg h3, if_neg h4,
        if_neg h5, if_neg (not_not_intro h6), if_neg h7, if_neg h8]
    rw [ho]
    have B := vdpauDmabufCopyBody_conj inp IslTiling.linear
    refine ⟨B.1, B.2.1, B.2.2.1, by rw [B.2.2.2.1, if_pos ⟨h1, hfd⟩], ?_,
      fun _ => B.2.2.2.2, hidem⟩
    intro k hk
    rw [B.2.2.2.2] at hk
    exact Option.noConfusion hk

def c7Input : DmabufCopyInput :=
  { export_fn_present := true, export_status_ok := true, export_fd := 5,
    export_width := 1920, export_height := 1080, export_fourcc := NV12_FOURCC,
    modifier := I915_FORMAT_MOD_Y_TILED, image_width := 1920,
    image_height := 1080,
    bo_import_result := VkResult.VK_ERROR_OUT_OF_DEVICE_MEMORY,
    bo_import_valid := false, dst_bo_valid := true,
    dst_tiling := IslTiling.y0, pitches_match := true, map_ok := true,
    malloc_ok := true, cache_capacity := 32,
    cpuResult := VkResult.VK_SUCCESS }

/-- Witness for C7 at a concrete input: export succeeds with fd 5 but the
BO import reports out-of-device-memory — the copy falls back to the CPU
path and still returns VK_SUCCESS, the fd is closed exactly once, and
eviction is invoked with keep_count 30 (capacity 32 - 2), which the
internal clamp keeps at an effective value of at least 3. -/
theorem C7_witness :
    (anv_vdpau_copy_surface_to_image_dmabuf c7Input).result =
      VkResult.VK_SUCCESS ∧
    (anv_vdpau_copy_surface_to_image_dmabuf c7Input).evict_keep = some 30 ∧
    3 ≤ evictEffectiveKeep 30 ∧
    (anv_vdpau_copy_surface_to_image_dmabuf c7Input).fd_closes = 1 :=
  ⟨(C7_theorem c7Input).2.2.1 (by decide),
   by decide,
   ((C7_theorem c7Input).2.2.2.2.1 30 (by decide)).2.2,
   by decide⟩

/-- C10: executing the VDPAU deferred queue with `N` queued commands and
frames-per-submit limit `L` (0 = unlimited, the compile-time default),
assuming every render succeeds and every command's target surface is in
the session surface map: when `L = 0` or `N ≤ L`, every command receives a
render call and a result copy, in FIFO order; otherwise exactly the
`N - L` oldest commands are skipped entirely (no render, no copy) and the
`L` newest are executed in order; in all cases every queued command's
resources are released and the call succeeds. -/
theorem C10_theorem (maxFrames : Nat) (m : List SurfaceMapEntry)
    (renderOk : Nat → Bool) (cmds : List VdpauDecodeCmd)
    (hok : ∀ j, renderOk j = true)
    (hfound : ∀ cmd ∈ cmds,
      (vdpauFindTargetImage m cmd.target_surface).isSome) :
    ((maxFrames = 0 ∨ cmds.length ≤ maxFrames) →
      (anv_vdpau_execute_deferred_decodes maxFrames m renderOk cmds).rendered =
        List.range cmds.length ∧
      (anv_vdpau_execute_deferred_decodes maxFrames m renderOk cmds).copied =
        List.range cmds.length) ∧
    (maxFrames ≠ 0 → maxFrames < cmds.length →
      (anv_vdpau_execute_deferred_decodes maxFrames m renderOk cmds).rendered =
        (List.range cmds.length).drop (cmds.length - maxFrames) ∧
      (anv_vdpau_execute_deferred_decodes maxFrames m renderOk cmds).copied =
        (List.range cmds.length).drop (cmds.length - maxFrames) ∧
      (∀ i < cmds.length - maxFrames,
        i ∉ (anv_vdpau_execute_deferred_decodes maxFrames m renderOk
          cmds).rendered ∧
        i ∉ (anv_vdpau_execute_deferred_decodes maxFrames m renderOk
          cmds).copied)) ∧
    (anv_vdpau_execute_deferred_decodes maxFrames m renderOk cmds).released =
      List.range cmds.length ∧
    (anv_vdpau_execute_deferred_decodes maxFrames m renderOk cmds).result =
      VkResult.VK_SUCCESS := by
  by_cases hn : cmds.length = 0
  · rw [List.eq_nil_of_length_eq_zero hn]
    refine ⟨?_, ?_, ?_, ?_⟩ <;>
      simp [anv_vdpau_execute_deferred_decodes, hn]
  · have hskip : vdpauSkipCount maxFrames cmds.length +
        vdpauFramesToProcess maxFrames cmds.length = cmds.length := by
      unfold vdpauSkipCount vdpauFramesToProcess
      by_cases h : maxFrames = 0 ∨ cmds.length ≤ maxFrames <;> (simp [h]; try omega)
    have hframes : vdpauFramesToProcess maxFrames cmds.length =
        cmds.length - vdpauSkipCount maxFrames cmds.length := by omega
    have hrl := vdpauRenderLoop_all_ok renderOk
      (vdpauSkipCount maxFrames cmds.length)
      (vdpauSkipCount maxFrames cmds.length +
        vdpauFramesToProcess maxFrames cmds.length)
      (fun j _ _ => hok j) cmds 0
    have hcl := vdpauCopyLoop_all_found m
      (vdpauSkipCount maxFrames cmds.length)
      (vdpauSkipCount maxFrames cmds.length +
        vdpauFramesToProcess maxFrames cmds.length) cmds 0 hfound
    have hwin : (List.range' 0 cmds.length).filter
        (fun j => decide (vdpauSkipCount maxFrames cmds.length ≤ j) &&
          decide (j < vdpauSkipCount maxFrames cmds.length +
            vdpauFramesToProcess maxFrames cmds.length)) =
        (List.range cmds.length).drop (vdpauSkipCount maxFrames cmds.length) := by
      rw [← List.range_eq_range', hframes]
      exact range_filter_window _ _
    have hout : anv_vdpau_execute_deferred_decodes maxFrames m renderOk cmds =
        { rendered := (List.range cmds.length).drop
            (vdpauSkipCount maxFrames cmds.length)
          copied := (List.range cmds.length).drop
            (vdpauSkipCount maxFrames cmds.length)
          released := List.range cmds.length
          result := VkResult.VK_SUCCESS } := by
      unfold anv_vdpau_execute_deferred_decodes
      rw [if_neg hn]
      simp only [hrl, hcl, hwin, if_pos]
      rw [vdpauReleaseLoop_eq cmds 0, ← List.range_eq_range']
    rw [hout]
    have hmem : ∀ i < vdpauSkipCount maxFrames cmds.length,
        i ∉ (List.range cmds.length).drop
          (vdpauSkipCount maxFrames cmds.length) := by
      intro i hi hcontra
      rw [← range_filter_ge] at hcontra
      have := (List.mem_filter.mp hcontra).2
      simp at this
      omega
    refine ⟨?_, ?_, rfl, rfl⟩
    · intro hcase
      have h0 : vdpauSkipCount maxFrames cmds.length = 0 := by
        unfold vdpauSkipCount
        simp [hcase]
      rw [h0]
      exact ⟨rfl, rfl⟩
    · intro hne hlt
      have h0 : vdpauSkipCount maxFrames cmds.length =
          cmds.length - maxFrames := by
        unfold vdpauSkipCount
        have : ¬ (maxFrames = 0 ∨ cmds.length ≤ maxFrames) := by
          push_neg
          exact ⟨hne, by omega⟩
        simp [this]
      rw [h0] at hmem ⊢
      exact ⟨rfl, rfl, fun i hi => ⟨hmem i hi, hmem i hi⟩⟩

/-- Witness for C10 at a concrete input: three queued commands with limit
2 — the oldest command (index 0) is skipped, commands 1 and 2 are rendered
and copied in order, and all three are released. -/
theorem C10_witness :
    (anv_vdpau_execute_deferred_decodes 2
        [{ image := 1, vdp_surface := 101, last_used_frame := 1 },
         { image := 2, vdp_surface := 102, last_used_frame := 2 },
         { image := 3, vdp_surface := 103, last_used_frame := 3 }]
        (fun _ => true)
        [{ decoder := 9, target_surface := 101, pic_info := {},
           bitstream_buffer_count := 1, slice_sizes := [8],
           ref_surfaces := [] },
         { decoder := 9, target_surface := 102, pic_info := {},
           bitstream_buffer_count := 1, slice_sizes := [8],
           ref_surfaces := [] },
         { decoder := 9, target_surface := 103, pic_info := {},
           bitstream_buffer_count := 1, slice_sizes := [8],
           ref_surfaces := [] }]).rendered = [1, 2] ∧
    (anv_vdpau_execute_deferred_decodes 2
        [{ image := 1, vdp_surface := 101, last_used_frame := 1 },
         { image := 2, vdp_surface := 102, last_used_frame := 2 },
         { image := 3, vdp_surface := 103, last_used_frame := 3 }]
        (fun _ => true)
        [{ decoder := 9, target_surface := 101, pic_info := {},
           bitstream_buffer_count := 1, slice_sizes := [8],
           ref_surfaces := [] },
         { decoder := 9, target_surface := 102, pic_info := {},
           bitstream_buffer_count := 1, slice_sizes := [8],
           ref_surfaces := [] },
         { decoder := 9, target_surface := 103, pic_info := {},
           bitstream_buffer_count := 1, slice_sizes := [8],
           ref_surfaces := [] }]).released = [0, 1, 2] := by
  have h := C10_theorem 2
    [{ image := 1, vdp_surface := 101, last_used_frame := 1 },
     { image := 2, vdp_surface := 102, last_used_frame := 2 },
     { image := 3, vdp_surface := 103, last_used_frame := 3 }]
    (fun _ => true)
    [{ decoder := 9, target_surface := 101, pic_info := {},
       bitstream_buffer_count := 1, slice_sizes := [8], ref_surfaces := [] },
     { decoder := 9, target_surface := 102, pic_info := {},
       bitstream_buffer_count := 1, slice_sizes := [8], ref_surfaces := [] },
     { decoder := 9, target_surface := 103, pic_info := {},
       bitstream_buffer_count := 1, slice_sizes := [8], ref_surfaces := [] }]
    (fun _ => rfl) (by decide)
  constructor
  · rw [(h.2.1 (by decide) (by decide)).1]
    decide
  · rw [h.2.2.1]
    decide

end HasvkVideo
